import Mathlib

/-!
Verification of the Owl-2820 virtual machine, its assembler and its RV32I
transcoding layer.  The C++ sources are shallowly embedded: 32-bit machine
integers are modelled as `Nat` (the `uint32_t` view) with explicit reduction
modulo `2 ^ 32`, and as `Int` where the source uses `int32_t`.  Memory is a
list of bytes; fallible operations (out-of-range accesses, C++ undefined
behaviour) return `Option`.
-/

/-- Reinterpretation of an integer as an unsigned 32-bit value: the value of
`static_cast<uint32_t>(e)` when `e` has integer value `i` (two's complement). -/
def u32 (i : Int) : Nat := (i % 4294967296).toNat

/-- Signed view of an unsigned 32-bit value: the value of
`static_cast<int32_t>(w)` (two's complement). -/
def sint32 (w : Nat) : Int := if w < 2147483648 then (w : Int) else (w : Int) - 4294967296

theorem u32_lt (i : Int) : u32 i < 4294967296 := by
  unfold u32; omega

theorem u32_cast (i : Int) : (u32 i : Int) = i % 4294967296 := by
  unfold u32; omega

theorem u32_ofNat (n : Nat) : u32 (n : Int) = n % 4294967296 := by
  unfold u32; omega

theorem sint32_emod (w : Nat) (h : w < 4294967296) : sint32 w % 4294967296 = (w : Int) := by
  unfold sint32; omega

theorem sint32_u32_emod (z : Int) : sint32 (u32 z) % 4294967296 = z % 4294967296 := by
  have h1 := u32_cast z
  have h2 := sint32_emod (u32 z) (u32_lt z)
  omega

/-! Bit-manipulation toolkit: the C++ sources use `&`, `|`, `<<`, `>>` on
32-bit quantities; these lemmas convert those to `%`, `/` and `*` so that
`omega` can reason about them. -/

theorem and_mask_lo (x w : Nat) : x &&& (2 ^ w - 1) = x % 2 ^ w :=
  Nat.and_pow_two_sub_one_eq_mod x w

theorem and_mask_hi (x k w : Nat) : x &&& ((2 ^ w - 1) <<< k) = x / 2 ^ k % 2 ^ w * 2 ^ k := by
  apply Nat.eq_of_testBit_eq
  intro i
  rcases Nat.lt_or_ge i k with hik | hik
  · have h1 : ((2 ^ w - 1) <<< k).testBit i = false := by
      simp [Nat.testBit_shiftLeft, Nat.not_le_of_lt hik]
    have h2 : (x / 2 ^ k % 2 ^ w * 2 ^ k).testBit i = false := by
      rw [Nat.mul_comm, Nat.testBit_mul_pow_two]
      simp [Nat.not_le_of_lt hik]
    simp [Nat.testBit_and, h1, h2]
  · obtain ⟨j, rfl⟩ := Nat.exists_eq_add_of_le hik
    have h1 : ((2 ^ w - 1) <<< k).testBit (k + j) = decide (j < w) := by
      simp [Nat.testBit_shiftLeft, Nat.testBit_two_pow_sub_one]
    have h2 : (x / 2 ^ k % 2 ^ w * 2 ^ k).testBit (k + j)
        = (decide (j < w) && x.testBit (k + j)) := by
      rw [Nat.mul_comm, Nat.testBit_mul_pow_two]
      have hkj : k ≤ k + j := Nat.le_add_right k j
      have hdiv : x / 2 ^ k = x >>> k := (Nat.shiftRight_eq_div_pow x k).symm
      simp [hkj, Nat.testBit_mod_two_pow, Nat.add_sub_cancel_left, hdiv,
        Nat.testBit_shiftRight]
    rw [Nat.testBit_and, h1, h2]
    cases x.testBit (k + j) <;> cases decide (j < w) <;> simp

theorem lor_eq_add_l (x y k : Nat) (hx : x < 2 ^ k) (hy : 2 ^ k ∣ y) : x ||| y = x + y := by
  obtain ⟨m, rfl⟩ := hy
  rw [Nat.or_comm, ← Nat.mul_add_lt_is_or hx m]
  omega

theorem lor_left_comm (x y z : Nat) : x ||| (y ||| z) = y ||| (x ||| z) := by
  rw [← Nat.or_assoc, Nat.or_comm x y, Nat.or_assoc]

/-! The Owl-2820 opcode table (opcodes.h): tag 0 is `Illegal`, values 1..45
enumerate the instruction set in declaration order. -/

inductive Opcode where
  | Illegal | Ecall | Ebreak
  | Add | Sub | Sll | Slt | Sltu | Xor | Srl | Sra | Or | And
  | Slli | Srli | Srai
  | Beq | Bne | Blt | Bge | Bltu | Bgeu
  | Addi | Slti | Sltiu | Xori | Ori | Andi
  | Lb | Lbu | Lh | Lhu | Lw
  | Sb | Sh | Sw
  | Fence
  | Jalr | Jal
  | Lui | Auipc
  | J | Call | Ret | Li | Mv
  deriving DecidableEq

/-- Numeric value of an opcode tag (the `uint32_t` value of the C++ enum). -/
def Opcode.tag : Opcode → Nat
  | .Illegal => 0 | .Ecall => 1 | .Ebreak => 2
  | .Add => 3 | .Sub => 4 | .Sll => 5 | .Slt => 6 | .Sltu => 7 | .Xor => 8
  | .Srl => 9 | .Sra => 10 | .Or => 11 | .And => 12
  | .Slli => 13 | .Srli => 14 | .Srai => 15
  | .Beq => 16 | .Bne => 17 | .Blt => 18 | .Bge => 19 | .Bltu => 20 | .Bgeu => 21
  | .Addi => 22 | .Slti => 23 | .Sltiu => 24 | .Xori => 25 | .Ori => 26 | .Andi => 27
  | .Lb => 28 | .Lbu => 29 | .Lh => 30 | .Lhu => 31 | .Lw => 32
  | .Sb => 33 | .Sh => 34 | .Sw => 35
  | .Fence => 36
  | .Jalr => 37 | .Jal => 38
  | .Lui => 39 | .Auipc => 40
  | .J => 41 | .Call => 42 | .Ret => 43 | .Li => 44 | .Mv => 45

theorem Opcode.tag_lt (op : Opcode) : op.tag < 128 := by
  cases op <;> decide

/-! Field encoders (`namespace encode` in assembler.h). -/

namespace encode

/-- encode::opc — opcode tag in bits [6:0]. -/
def opc (opcode : Opcode) : Nat := opcode.tag

/-- encode::r0 — `(r & 0x1f) << 7`. -/
def r0 (r : Nat) : Nat := (r &&& 0x1f) <<< 7

/-- encode::r1 — `(r & 0x1f) << 12`. -/
def r1 (r : Nat) : Nat := (r &&& 0x1f) <<< 12

/-- encode::r2 — `(r & 0x1f) << 17`. -/
def r2 (r : Nat) : Nat := (r &&& 0x1f) <<< 17

/-- encode::shift — `(uimm5 & 0x1f) << 17`. -/
def shift (uimm5 : Nat) : Nat := (uimm5 &&& 0x1f) <<< 17

/-- encode::imm12 — `static_cast<uint32_t>(imm12 << 20)`. -/
def imm12 (imm : Int) : Nat := u32 (imm * 1048576)

/-- encode::offs12 — `static_cast<uint32_t>(offs12 << 19) & 0xfff00000`. -/
def offs12 (offs : Int) : Nat := u32 (offs * 524288) &&& 0xfff00000

/-- encode::offs20 — `static_cast<uint32_t>(offs20 << 11) & 0xfffff000`. -/
def offs20 (offs : Int) : Nat := u32 (offs * 2048) &&& 0xfffff000

/-- encode::uimm20 — `(uimm20 << 12) & 0xfffff000` in `uint32_t` arithmetic. -/
def uimm20 (u : Nat) : Nat := (u <<< 12) % 4294967296 &&& 0xfffff000

end encode

/-! Field decoders (`namespace decode` in dispatch_owl.h). -/

namespace decode

/-- decode::r0 — `(ins >> 7) & 0x1f`. -/
def r0 (ins : Nat) : Nat := (ins >>> 7) &&& 0x1f

/-- decode::r1 — `(ins >> 12) & 0x1f`. -/
def r1 (ins : Nat) : Nat := (ins >>> 12) &&& 0x1f

/-- decode::r2 — `(ins >> 17) & 0x1f`. -/
def r2 (ins : Nat) : Nat := (ins >>> 17) &&& 0x1f

/-- decode::shift — `(ins >> 17) & 0x1f`. -/
def shift (ins : Nat) : Nat := (ins >>> 17) &&& 0x1f

/-- decode::imm12 — `(int32_t)(ins & 0xfff00000) >> 20`, returned as `uint32_t`;
the arithmetic right shift of an `int32_t` is floor division by `2 ^ 20`. -/
def imm12 (ins : Nat) : Nat := u32 (sint32 (ins &&& 0xfff00000) / 1048576)

/-- decode::offs12 — `(int32_t)(ins & 0xfff00000) >> 19`, returned as `uint32_t`. -/
def offs12 (ins : Nat) : Nat := u32 (sint32 (ins &&& 0xfff00000) / 524288)

/-- decode::offs20 — `(int32_t)(ins & 0xfffff000) >> 11`, returned as `uint32_t`. -/
def offs20 (ins : Nat) : Nat := u32 (sint32 (ins &&& 0xfffff000) / 2048)

/-- decode::uimm20 — `ins & 0xfffff000`. -/
def uimm20 (ins : Nat) : Nat := ins &&& 0xfffff000

end decode

/-! Arithmetic characterizations of the field codecs. -/

theorem encode_r0_eq (a : Nat) : encode.r0 a = a % 32 * 128 := by
  unfold encode.r0
  have h := and_mask_lo a 5
  norm_num at h
  rw [h, Nat.shiftLeft_eq]

theorem encode_r1_eq (a : Nat) : encode.r1 a = a % 32 * 4096 := by
  unfold encode.r1
  have h := and_mask_lo a 5
  norm_num at h
  rw [h, Nat.shiftLeft_eq]

theorem encode_r2_eq (a : Nat) : encode.r2 a = a % 32 * 131072 := by
  unfold encode.r2
  have h := and_mask_lo a 5
  norm_num at h
  rw [h, Nat.shiftLeft_eq]

theorem encode_shift_eq (a : Nat) : encode.shift a = a % 32 * 131072 := by
  unfold encode.shift
  have h := and_mask_lo a 5
  norm_num at h
  rw [h, Nat.shiftLeft_eq]

theorem encode_imm12_eq (imm : Int) : encode.imm12 imm = (imm % 4096).toNat * 1048576 := by
  unfold encode.imm12 u32
  omega

theorem encode_offs12_eq (offs : Int) :
    encode.offs12 offs = (offs % 8192).toNat / 2 * 1048576 := by
  unfold encode.offs12
  rw [show (0xfff00000 : Nat) = (2 ^ 12 - 1) <<< 20 by norm_num [Nat.shiftLeft_eq], and_mask_hi]
  unfold u32
  omega

theorem encode_offs20_eq (offs : Int) :
    encode.offs20 offs = (offs % 2097152).toNat / 2 * 4096 := by
  unfold encode.offs20
  rw [show (0xfffff000 : Nat) = (2 ^ 20 - 1) <<< 12 by norm_num [Nat.shiftLeft_eq], and_mask_hi]
  unfold u32
  omega

theorem encode_uimm20_eq (u : Nat) : encode.uimm20 u = u % 1048576 * 4096 := by
  unfold encode.uimm20
  rw [show (0xfffff000 : Nat) = (2 ^ 20 - 1) <<< 12 by norm_num [Nat.shiftLeft_eq],
    and_mask_hi, Nat.shiftLeft_eq]
  omega

theorem decode_r0_eq (w : Nat) : decode.r0 w = w / 128 % 32 := by
  unfold decode.r0
  have h := and_mask_lo (w >>> 7) 5
  norm_num at h
  rw [h, Nat.shiftRight_eq_div_pow]

theorem decode_r1_eq (w : Nat) : decode.r1 w = w / 4096 % 32 := by
  unfold decode.r1
  have h := and_mask_lo (w >>> 12) 5
  norm_num at h
  rw [h, Nat.shiftRight_eq_div_pow]

theorem decode_r2_eq (w : Nat) : decode.r2 w = w / 131072 % 32 := by
  unfold decode.r2
  have h := and_mask_lo (w >>> 17) 5
  norm_num at h
  rw [h, Nat.shiftRight_eq_div_pow]

theorem decode_shift_eq (w : Nat) : decode.shift w = w / 131072 % 32 := by
  unfold decode.shift
  have h := and_mask_lo (w >>> 17) 5
  norm_num at h
  rw [h, Nat.shiftRight_eq_div_pow]

theorem decode_imm12_eq (w : Nat) :
    decode.imm12 w = u32 (sint32 (w / 1048576 % 4096 * 1048576) / 1048576) := by
  unfold decode.imm12
  rw [show (0xfff00000 : Nat) = (2 ^ 12 - 1) <<< 20 by norm_num [Nat.shiftLeft_eq], and_mask_hi]
  norm_num

theorem decode_offs12_eq (w : Nat) :
    decode.offs12 w = u32 (sint32 (w / 1048576 % 4096 * 1048576) / 524288) := by
  unfold decode.offs12
  rw [show (0xfff00000 : Nat) = (2 ^ 12 - 1) <<< 20 by norm_num [Nat.shiftLeft_eq], and_mask_hi]
  norm_num

theorem decode_offs20_eq (w : Nat) :
    decode.offs20 w = u32 (sint32 (w / 4096 % 1048576 * 4096) / 2048) := by
  unfold decode.offs20
  rw [show (0xfffff000 : Nat) = (2 ^ 20 - 1) <<< 12 by norm_num [Nat.shiftLeft_eq], and_mask_hi]
  norm_num

theorem decode_uimm20_eq (w : Nat) : decode.uimm20 w = w / 4096 % 1048576 * 4096 := by
  unfold decode.uimm20
  rw [show (0xfffff000 : Nat) = (2 ^ 20 - 1) <<< 12 by norm_num [Nat.shiftLeft_eq], and_mask_hi]
  norm_num


/-! Instruction words emitted by the assembler: one definition per instruction
format, each the exact `Emit(...)` argument of the corresponding method of
class `Assembler`. -/

/-- Word for a register-register instruction (`Assembler::Add` etc.). -/
def wordRR (op : Opcode) (a b c : Nat) : Nat :=
  encode.opc op ||| encode.r0 a ||| encode.r1 b ||| encode.r2 c

/-- Word for an immediate-shift instruction (`Assembler::Slli` etc.). -/
def wordShiftImm (op : Opcode) (a b sh : Nat) : Nat :=
  encode.opc op ||| encode.r0 a ||| encode.r1 b ||| encode.shift sh

/-- Word for a branch instruction (`Assembler::Branch`). -/
def wordBranch (op : Opcode) (a b : Nat) (offs : Int) : Nat :=
  encode.opc op ||| encode.r0 a ||| encode.r1 b ||| encode.offs12 offs

/-- Word for a register-immediate instruction (`Assembler::Addi` etc.). -/
def wordRI (op : Opcode) (a b : Nat) (imm : Int) : Nat :=
  encode.opc op ||| encode.r0 a ||| encode.r1 b ||| encode.imm12 imm

/-- Word for a load/store instruction (`Assembler::Lb` etc.). -/
def wordMem (op : Opcode) (a : Nat) (imm : Int) (b : Nat) : Nat :=
  encode.opc op ||| encode.r0 a ||| encode.imm12 imm ||| encode.r1 b

/-- Word for `Assembler::Jalr`. -/
def wordJalr (op : Opcode) (a : Nat) (offs : Int) (b : Nat) : Nat :=
  encode.opc op ||| encode.offs12 offs ||| encode.r1 b ||| encode.r0 a

/-- Word for `Assembler::Jal`. -/
def wordJal (op : Opcode) (a : Nat) (offs : Int) : Nat :=
  encode.opc op ||| encode.offs20 offs ||| encode.r0 a

/-- Word for `Assembler::Lui` / `Assembler::Auipc`. -/
def wordU (op : Opcode) (a u : Nat) : Nat :=
  encode.opc op ||| encode.r0 a ||| encode.uimm20 u

/-- Word for `Assembler::Jump` (`J` / `Call`). -/
def wordJ20 (op : Opcode) (offs : Int) : Nat :=
  encode.opc op ||| encode.offs20 offs

/-- Word for `Assembler::Li`. -/
def wordLi (op : Opcode) (a : Nat) (imm : Int) : Nat :=
  encode.opc op ||| encode.r0 a ||| encode.imm12 imm

/-- Word for `Assembler::Mv`. -/
def wordMv (op : Opcode) (a b : Nat) : Nat :=
  encode.opc op ||| encode.r0 a ||| encode.r1 b

/-! Positional (sum-of-fields) characterizations of the builder words. -/

theorem wordRR_eq (op : Opcode) (a b c : Nat) :
    wordRR op a b c = encode.opc op + a % 32 * 128 + b % 32 * 4096 + c % 32 * 131072 := by
  unfold wordRR
  have h0 : encode.opc op < 128 := Opcode.tag_lt op
  rw [encode_r0_eq, encode_r1_eq, encode_r2_eq,
    lor_eq_add_l (encode.opc op) (a % 32 * 128) 7 (by omega) (by omega),
    lor_eq_add_l (encode.opc op + a % 32 * 128) (b % 32 * 4096) 12 (by omega) (by omega),
    lor_eq_add_l (encode.opc op + a % 32 * 128 + b % 32 * 4096) (c % 32 * 131072) 17
      (by omega) (by omega)]

theorem wordShiftImm_eq (op : Opcode) (a b sh : Nat) :
    wordShiftImm op a b sh
      = encode.opc op + a % 32 * 128 + b % 32 * 4096 + sh % 32 * 131072 := by
  unfold wordShiftImm
  have h0 : encode.opc op < 128 := Opcode.tag_lt op
  rw [encode_r0_eq, encode_r1_eq, encode_shift_eq,
    lor_eq_add_l (encode.opc op) (a % 32 * 128) 7 (by omega) (by omega),
    lor_eq_add_l (encode.opc op + a % 32 * 128) (b % 32 * 4096) 12 (by omega) (by omega),
    lor_eq_add_l (encode.opc op + a % 32 * 128 + b % 32 * 4096) (sh % 32 * 131072) 17
      (by omega) (by omega)]

theorem wordBranch_eq (op : Opcode) (a b : Nat) (offs : Int) :
    wordBranch op a b offs
      = encode.opc op + a % 32 * 128 + b % 32 * 4096
        + (offs % 8192).toNat / 2 * 1048576 := by
  unfold wordBranch
  have h0 : encode.opc op < 128 := Opcode.tag_lt op
  rw [encode_r0_eq, encode_r1_eq, encode_offs12_eq,
    lor_eq_add_l (encode.opc op) (a % 32 * 128) 7 (by omega) (by omega),
    lor_eq_add_l (encode.opc op + a % 32 * 128) (b % 32 * 4096) 12 (by omega) (by omega),
    lor_eq_add_l (encode.opc op + a % 32 * 128 + b % 32 * 4096)
      ((offs % 8192).toNat / 2 * 1048576) 20 (by omega) (by omega)]

theorem wordRI_eq (op : Opcode) (a b : Nat) (imm : Int) :
    wordRI op a b imm
      = encode.opc op + a % 32 * 128 + b % 32 * 4096 + (imm % 4096).toNat * 1048576 := by
  unfold wordRI
  have h0 : encode.opc op < 128 := Opcode.tag_lt op
  rw [encode_r0_eq, encode_r1_eq, encode_imm12_eq,
    lor_eq_add_l (encode.opc op) (a % 32 * 128) 7 (by omega) (by omega),
    lor_eq_add_l (encode.opc op + a % 32 * 128) (b % 32 * 4096) 12 (by omega) (by omega),
    lor_eq_add_l (encode.opc op + a % 32 * 128 + b % 32 * 4096)
      ((imm % 4096).toNat * 1048576) 20 (by omega) (by omega)]

theorem wordMem_eq_wordRI (op : Opcode) (a : Nat) (imm : Int) (b : Nat) :
    wordMem op a imm b = wordRI op a b imm := by
  unfold wordMem wordRI
  rw [Nat.or_assoc, Nat.or_assoc, Nat.or_comm (encode.imm12 imm) (encode.r1 b),
    ← Nat.or_assoc, ← Nat.or_assoc]

theorem wordJalr_eq_wordBranch (op : Opcode) (a : Nat) (offs : Int) (b : Nat) :
    wordJalr op a offs b = wordBranch op a b offs := by
  unfold wordJalr wordBranch
  rw [Nat.or_assoc, Nat.or_assoc, Nat.or_assoc, Nat.or_assoc,
    lor_left_comm (encode.offs12 offs) (encode.r1 b),
    Nat.or_comm (encode.offs12 offs) (encode.r0 a),
    lor_left_comm (encode.r1 b) (encode.r0 a)]

theorem wordLi_eq (op : Opcode) (a : Nat) (imm : Int) :
    wordLi op a imm = encode.opc op + a % 32 * 128 + (imm % 4096).toNat * 1048576 := by
  unfold wordLi
  have h0 : encode.opc op < 128 := Opcode.tag_lt op
  rw [encode_r0_eq, encode_imm12_eq,
    lor_eq_add_l (encode.opc op) (a % 32 * 128) 7 (by omega) (by omega),
    lor_eq_add_l (encode.opc op + a % 32 * 128) ((imm % 4096).toNat * 1048576) 12
      (by omega) (by omega)]

theorem wordMv_eq (op : Opcode) (a b : Nat) :
    wordMv op a b = encode.opc op + a % 32 * 128 + b % 32 * 4096 := by
  unfold wordMv
  have h0 : encode.opc op < 128 := Opcode.tag_lt op
  rw [encode_r0_eq, encode_r1_eq,
    lor_eq_add_l (encode.opc op) (a % 32 * 128) 7 (by omega) (by omega),
    lor_eq_add_l (encode.opc op + a % 32 * 128) (b % 32 * 4096) 12 (by omega) (by omega)]

theorem wordJal_eq (op : Opcode) (a : Nat) (offs : Int) :
    wordJal op a offs
      = encode.opc op + a % 32 * 128 + (offs % 2097152).toNat / 2 * 4096 := by
  unfold wordJal
  have h0 : encode.opc op < 128 := Opcode.tag_lt op
  rw [Nat.or_assoc, Nat.or_comm (encode.offs20 offs) (encode.r0 a), ← Nat.or_assoc,
    encode_r0_eq, encode_offs20_eq,
    lor_eq_add_l (encode.opc op) (a % 32 * 128) 7 (by omega) (by omega),
    lor_eq_add_l (encode.opc op + a % 32 * 128) ((offs % 2097152).toNat / 2 * 4096) 12
      (by omega) (by omega)]

theorem wordU_eq (op : Opcode) (a u : Nat) :
    wordU op a u = encode.opc op + a % 32 * 128 + u % 1048576 * 4096 := by
  unfold wordU
  have h0 : encode.opc op < 128 := Opcode.tag_lt op
  rw [encode_r0_eq, encode_uimm20_eq,
    lor_eq_add_l (encode.opc op) (a % 32 * 128) 7 (by omega) (by omega),
    lor_eq_add_l (encode.opc op + a % 32 * 128) (u % 1048576 * 4096) 12
      (by omega) (by omega)]

theorem wordJ20_eq (op : Opcode) (offs : Int) :
    wordJ20 op offs = encode.opc op + (offs % 2097152).toNat / 2 * 4096 := by
  unfold wordJ20
  have h0 : encode.opc op < 128 := Opcode.tag_lt op
  rw [encode_offs20_eq,
    lor_eq_add_l (encode.opc op) ((offs % 2097152).toNat / 2 * 4096) 12
      (by omega) (by omega)]

/-! Round-trip cores for the sign-extended fields. -/

theorem imm12_rt (imm : Int) (h1 : -2048 ≤ imm) (h2 : imm ≤ 2047) :
    u32 (sint32 ((imm % 4096).toNat * 1048576) / 1048576) = u32 imm := by
  unfold sint32 u32
  split <;> omega

theorem offs12_rt (offs : Int) (h1 : -4096 ≤ offs) (h2 : offs ≤ 4094) :
    u32 (sint32 ((offs % 8192).toNat / 2 * 1048576) / 524288) = u32 (offs - offs % 2) := by
  unfold sint32 u32
  split <;> omega

theorem offs20_rt (offs : Int) (h1 : -1048576 ≤ offs) (h2 : offs ≤ 1048574) :
    u32 (sint32 ((offs % 2097152).toNat / 2 * 4096) / 2048) = u32 (offs - offs % 2) := by
  unfold sint32 u32
  split <;> omega

/-- C2: for every opcode and every operand tuple within the documented field
widths, decoding the word built by the encoders returns the original operands:
the 5-bit register and shift fields survive exactly (and the opcode tag is
recoverable from bits [6:0]); `imm12` in [-2048, 2047] survives under
sign-extension; `offs12` in [-4096, 4094] and `offs20` in [-1048576, 1048574]
survive under sign-extension with the low bit forced to zero; the `uimm20`
operand survives with its low 20 bits repositioned at [31:12], i.e. masked to
`0xfffff000`. -/
theorem encode_decode_roundtrip (op : Opcode) (a b c sh : Nat) (imm offs o20 : Int)
    (u : Nat) (ha : a < 32) (hb : b < 32) (hc : c < 32) (hsh : sh < 32)
    (himm1 : -2048 ≤ imm) (himm2 : imm ≤ 2047)
    (hoffs1 : -4096 ≤ offs) (hoffs2 : offs ≤ 4094)
    (ho1 : -1048576 ≤ o20) (ho2 : o20 ≤ 1048574)
    (hu : u < 1048576) :
    decode.r0 (wordRR op a b c) = a
    ∧ decode.r1 (wordRR op a b c) = b
    ∧ decode.r2 (wordRR op a b c) = c
    ∧ wordRR op a b c &&& 127 = encode.opc op
    ∧ decode.shift (wordShiftImm op a b sh) = sh
    ∧ decode.r0 (wordBranch op a b offs) = a
    ∧ decode.r1 (wordBranch op a b offs) = b
    ∧ decode.offs12 (wordBranch op a b offs) = u32 (offs - offs % 2)
    ∧ decode.r0 (wordRI op a b imm) = a
    ∧ decode.r1 (wordRI op a b imm) = b
    ∧ decode.imm12 (wordRI op a b imm) = u32 imm
    ∧ decode.imm12 (wordMem op a imm b) = u32 imm
    ∧ decode.r0 (wordJalr op a offs b) = a
    ∧ decode.r1 (wordJalr op a offs b) = b
    ∧ decode.offs12 (wordJalr op a offs b) = u32 (offs - offs % 2)
    ∧ decode.r0 (wordJal op a o20) = a
    ∧ decode.offs20 (wordJal op a o20) = u32 (o20 - o20 % 2)
    ∧ decode.offs20 (wordJ20 op o20) = u32 (o20 - o20 % 2)
    ∧ decode.r0 (wordU op a u) = a
    ∧ decode.uimm20 (wordU op a u) = u * 4096
    ∧ decode.imm12 (wordLi op a imm) = u32 imm
    ∧ decode.r0 (wordMv op a b) = a
    ∧ decode.r1 (wordMv op a b) = b := by
  have htag : encode.opc op < 128 := Opcode.tag_lt op
  have hopc : encode.opc op = Opcode.tag op := rfl
  have hBr : wordBranch op a b offs / 1048576 % 4096 = (offs % 8192).toNat / 2 := by
    rw [wordBranch_eq]; omega
  have hRI : wordRI op a b imm / 1048576 % 4096 = (imm % 4096).toNat := by
    rw [wordRI_eq]; omega
  have hLi : wordLi op a imm / 1048576 % 4096 = (imm % 4096).toNat := by
    rw [wordLi_eq]; omega
  have hJal : wordJal op a o20 / 4096 % 1048576 = (o20 % 2097152).toNat / 2 := by
    rw [wordJal_eq]; omega
  have hJ20 : wordJ20 op o20 / 4096 % 1048576 = (o20 % 2097152).toNat / 2 := by
    rw [wordJ20_eq]; omega
  refine ⟨?_, ?_, ?_, ?_, ?_, ?_, ?_, ?_, ?_, ?_, ?_, ?_, ?_, ?_, ?_, ?_, ?_, ?_, ?_,
    ?_, ?_, ?_, ?_⟩
  · rw [decode_r0_eq, wordRR_eq]; omega
  · rw [decode_r1_eq, wordRR_eq]; omega
  · rw [decode_r2_eq, wordRR_eq]; omega
  · rw [show (127 : Nat) = 2 ^ 7 - 1 by norm_num, and_mask_lo, wordRR_eq]
    unfold encode.opc
    omega
  · rw [decode_shift_eq, wordShiftImm_eq]; omega
  · rw [decode_r0_eq, wordBranch_eq]; omega
  · rw [decode_r1_eq, wordBranch_eq]; omega
  · rw [decode_offs12_eq, hBr]; exact offs12_rt offs hoffs1 hoffs2
  · rw [decode_r0_eq, wordRI_eq]; omega
  · rw [decode_r1_eq, wordRI_eq]; omega
  · rw [decode_imm12_eq, hRI]; exact imm12_rt imm himm1 himm2
  · rw [wordMem_eq_wordRI, decode_imm12_eq, hRI]; exact imm12_rt imm himm1 himm2
  · rw [wordJalr_eq_wordBranch, decode_r0_eq, wordBranch_eq]; omega
  · rw [wordJalr_eq_wordBranch, decode_r1_eq, wordBranch_eq]; omega
  · rw [wordJalr_eq_wordBranch, decode_offs12_eq, hBr]; exact offs12_rt offs hoffs1 hoffs2
  · rw [decode_r0_eq, wordJal_eq]; omega
  · rw [decode_offs20_eq, hJal]; exact offs20_rt o20 ho1 ho2
  · rw [decode_offs20_eq, hJ20]; exact offs20_rt o20 ho1 ho2
  · rw [decode_r0_eq, wordU_eq]; omega
  · rw [decode_uimm20_eq, wordU_eq]; omega
  · rw [decode_imm12_eq, hLi]; exact imm12_rt imm himm1 himm2
  · rw [decode_r0_eq, wordMv_eq]; omega
  · rw [decode_r1_eq, wordMv_eq]; omega

/-- Witness for C2 at a concrete operand tuple. -/
theorem encode_decode_roundtrip_witness :
    decode.r0 (wordRR .Add 5 6 7) = 5 ∧ decode.imm12 (wordRI .Addi 5 6 (-7)) = u32 (-7) := by
  have h := encode_decode_roundtrip .Add 5 6 7 8 (-7) (-6) (-10) 9 (by decide) (by decide)
    (by decide) (by decide) (by decide) (by decide) (by decide) (by decide) (by decide)
    (by decide) (by decide)
  have h2 := encode_decode_roundtrip .Addi 5 6 7 8 (-7) (-6) (-10) 9 (by decide) (by decide)
    (by decide) (by decide) (by decide) (by decide) (by decide) (by decide) (by decide)
    (by decide) (by decide)
  exact ⟨h.1, h2.2.2.2.2.2.2.2.2.2.2.1⟩

/-! Memory accessors (memory.h): a flat byte buffer, little-endian multi-byte
access via byte-wise copies.  Out-of-range access is undefined behaviour in the
source and is modelled as `none`. -/

/-- Read8 — `memory[addr]`. -/
def Read8 (memory : List Nat) (addr : Nat) : Option Nat := memory[addr]?

/-- Read16 — copy two bytes starting at `addr` and assemble them little-endian
(`AsLE` byte-swaps on big-endian hosts, so the value is always the
little-endian assembly of the buffer bytes). -/
def Read16 (memory : List Nat) (addr : Nat) : Option Nat := do
  let b0 ← memory[addr]?
  let b1 ← memory[addr + 1]?
  pure (b0 + 256 * b1)

/-- Read32 — copy four bytes starting at `addr`, assembled little-endian. -/
def Read32 (memory : List Nat) (addr : Nat) : Option Nat := do
  let b0 ← memory[addr]?
  let b1 ← memory[addr + 1]?
  let b2 ← memory[addr + 2]?
  let b3 ← memory[addr + 3]?
  pure (b0 + 256 * b1 + 65536 * b2 + 16777216 * b3)

/-- Write8 — `memory[addr] = byte`. -/
def Write8 (memory : List Nat) (addr : Nat) (byte : Nat) : Option (List Nat) :=
  if addr < memory.length then some (memory.set addr byte) else none

/-- Write16 — store the two bytes of the half-word at `addr`, low byte first. -/
def Write16 (memory : List Nat) (addr : Nat) (halfWord : Nat) : Option (List Nat) := do
  let m1 ← Write8 memory addr (halfWord % 256)
  Write8 m1 (addr + 1) (halfWord / 256 % 256)

/-- Write32 — store the four bytes of the word at `addr`, low byte first. -/
def Write32 (memory : List Nat) (addr : Nat) (word : Nat) : Option (List Nat) := do
  let m1 ← Write8 memory addr (word % 256)
  let m2 ← Write8 m1 (addr + 1) (word / 256 % 256)
  let m3 ← Write8 m2 (addr + 2) (word / 65536 % 256)
  Write8 m3 (addr + 3) (word / 16777216 % 256)

theorem Write8_some (m : List Nat) (a b : Nat) (h : a < m.length) :
    Write8 m a b = some (m.set a b) := by
  unfold Write8
  rw [if_pos h]

/-- C9: for each access width in {8, 16, 32} bits, writing a value of that
width at any in-range byte address (alignment not required) and reading it
back at the same address returns the value; and a 32-bit write stores its
bytes in the buffer in little-endian order. -/
theorem mem_little_endian_roundtrip (m : List Nat) (a v : Nat) :
    (a + 1 ≤ m.length → (Write8 m a v).bind (fun m1 => Read8 m1 a) = some v)
    ∧ (a + 2 ≤ m.length → v < 65536 →
        (Write16 m a v).bind (fun m2 => Read16 m2 a) = some v)
    ∧ (a + 4 ≤ m.length → v < 4294967296 →
        (Write32 m a v).bind (fun m4 => Read32 m4 a) = some v
        ∧ (Write32 m a v).map (fun m4 => (m4[a]?, m4[a + 1]?, m4[a + 2]?, m4[a + 3]?))
          = some (some (v % 256), some (v / 256 % 256), some (v / 65536 % 256),
              some (v / 16777216 % 256))) := by
  refine ⟨fun h1 => ?_, fun h2 hv => ?_, fun h4 hv => ?_⟩
  · rw [Write8_some m a v (by omega)]
    simp [Read8, List.getElem?_set_self, Nat.lt_of_lt_of_le (Nat.lt_succ_self a) h1]
  · have ha0 : a < m.length := by omega
    have ha1 : a + 1 < (m.set a (v % 256)).length := by simp; omega
    unfold Write16
    rw [Write8_some m a (v % 256) ha0]
    simp only [Option.bind_eq_bind, Option.some_bind]
    rw [Write8_some _ (a + 1) (v / 256 % 256) ha1]
    simp only [Option.bind_eq_bind, Option.some_bind]
    unfold Read16
    rw [List.getElem?_set_ne (by omega), List.getElem?_set_self (by simpa using ha0),
      List.getElem?_set_self (by simpa using ha1)]
    simp only [Option.bind_eq_bind, Option.some_bind, Option.pure_def, Option.some.injEq]
    omega
  · have ha0 : a < m.length := by omega
    set m1 := m.set a (v % 256) with hm1
    have ha1 : a + 1 < m1.length := by simp [hm1]; omega
    set m2 := m1.set (a + 1) (v / 256 % 256) with hm2
    have ha2 : a + 2 < m2.length := by simp [hm2, hm1]; omega
    set m3 := m2.set (a + 2) (v / 65536 % 256) with hm3
    have ha3 : a + 3 < m3.length := by simp [hm3, hm2, hm1]; omega
    set m4 := m3.set (a + 3) (v / 16777216 % 256) with hm4
    have hw : Write32 m a v = some m4 := by
      unfold Write32
      rw [Write8_some m a (v % 256) ha0]
      simp only [Option.bind_eq_bind, Option.some_bind]
      rw [Write8_some m1 (a + 1) (v / 256 % 256) ha1]
      simp only [Option.bind_eq_bind, Option.some_bind]
      rw [Write8_some m2 (a + 2) (v / 65536 % 256) ha2]
      simp only [Option.bind_eq_bind, Option.some_bind]
      rw [Write8_some m3 (a + 3) (v / 16777216 % 256) ha3]
    have hb0 : m4[a]? = some (v % 256) := by
      rw [hm4, List.getElem?_set_ne (by omega), hm3, List.getElem?_set_ne (by omega),
        hm2, List.getElem?_set_ne (by omega), hm1,
        List.getElem?_set_self (by simpa using ha0)]
    have hb1 : m4[a + 1]? = some (v / 256 % 256) := by
      rw [hm4, List.getElem?_set_ne (by omega), hm3, List.getElem?_set_ne (by omega),
        hm2, List.getElem?_set_self (by simpa using ha1)]
    have hb2 : m4[a + 2]? = some (v / 65536 % 256) := by
      rw [hm4, List.getElem?_set_ne (by omega), hm3,
        List.getElem?_set_self (by simpa using ha2)]
    have hb3 : m4[a + 3]? = some (v / 16777216 % 256) := by
      rw [hm4, List.getElem?_set_self (by simpa using ha3)]
    constructor
    · rw [hw]
      simp only [Option.bind_eq_bind, Option.some_bind]
      unfold Read32
      rw [hb0, hb1, hb2, hb3]
      simp only [Option.bind_eq_bind, Option.some_bind, Option.pure_def, Option.some.injEq]
      omega
    · rw [hw]
      simp only [Option.map_some', Option.some.injEq]
      rw [hb0, hb1, hb2, hb3]

/-- Witness for C9: an unaligned 32-bit round trip at address 1 of a
five-byte buffer. -/
theorem mem_little_endian_roundtrip_witness :
    (Write32 [17, 17, 17, 17, 17] 1 2864434397).bind (fun m4 => Read32 m4 1)
      = some 2864434397 :=
  ((mem_little_endian_roundtrip [17, 17, 17, 17, 17] 1 2864434397).2.2
    (by decide) (by decide)).1

/-! The Owl-2820 CPU (cpu.h).  Syscall console output is recorded as a trace of
events.  Registers are a function from index; the executor only ever uses
indices 0..31. -/

/-- A host-visible syscall effect (`std::cout` output of `OwlCpu::Ecall`). -/
inductive SysEv where
  | exitEv (status : Nat)
  | printFibEv (i v : Nat)
  deriving DecidableEq

/-- VM state: program counter, next program counter, integer registers, halt
flag, byte memory, and the trace of syscall output. -/
structure OwlCpu where
  pc : Nat
  nextPc : Nat
  x : Nat → Nat
  done : Bool
  mem : List Nat
  out : List SysEv

/-- Register write as the executor performs it: `x[r] = v;` followed by
`x[0] = 0; // Ensure x0 is always zero.` -/
def xset (x : Nat → Nat) (r v : Nat) : Nat → Nat :=
  fun i => if i = 0 then 0 else if i = r then v else x i

/-- Initial state of `OwlCpu(image)`: everything zero except `x[sp]`, which is
set to the size of memory in bytes. -/
def OwlCpu.init (mem : List Nat) : OwlCpu :=
  { pc := 0, nextPc := 0, x := fun i => if i = 2 then mem.length % 4294967296 else 0,
    done := false, mem := mem, out := [] }

/-- Sign extension of a byte (`static_cast<int8_t>`). -/
def sext8 (b : Nat) : Int := if b % 256 < 128 then (b % 256 : Int) else (b % 256 : Int) - 256

/-- Sign extension of a half-word (`static_cast<int16_t>`). -/
def sext16 (h : Nat) : Int :=
  if h % 65536 < 32768 then (h % 65536 : Int) else (h % 65536 : Int) - 65536

/-- Ecall — dispatch on the syscall selector in `x[a7]` (register 17);
`Exit` (0) prints the status from `x[a0]` and halts, `PrintFib` (1) prints
`x[a0], x[a1]`; the `switch` has no other case, so any other selector falls
through with no effect. -/
def OwlCpu.Ecall (s : OwlCpu) : OwlCpu :=
  if s.x 17 = 0 then { s with out := s.out ++ [SysEv.exitEv (s.x 10)], done := true }
  else if s.x 17 = 1 then { s with out := s.out ++ [SysEv.printFibEv (s.x 10) (s.x 11)] }
  else s

/-- Ebreak — halt. -/
def OwlCpu.Ebreak (s : OwlCpu) : OwlCpu := { s with done := true }

/-- Add — `x[r0] = x[r1] + x[r2]` (32-bit wraparound). -/
def OwlCpu.Add (s : OwlCpu) (r0 r1 r2 : Nat) : OwlCpu :=
  { s with x := xset s.x r0 ((s.x r1 + s.x r2) % 4294967296) }

/-- Sub — `x[r0] = x[r1] - x[r2]` (32-bit wraparound). -/
def OwlCpu.Sub (s : OwlCpu) (r0 r1 r2 : Nat) : OwlCpu :=
  { s with x := xset s.x r0 (u32 ((s.x r1 : Int) - (s.x r2 : Int))) }

/-- Sll — `x[r0] = x[r1] << (x[r2] % 32)`. -/
def OwlCpu.Sll (s : OwlCpu) (r0 r1 r2 : Nat) : OwlCpu :=
  { s with x := xset s.x r0 ((s.x r1 <<< (s.x r2 % 32)) % 4294967296) }

/-- Slt — signed comparison of `x[r1]` and `x[r2]`. -/
def OwlCpu.Slt (s : OwlCpu) (r0 r1 r2 : Nat) : OwlCpu :=
  { s with x := xset s.x r0 (if sint32 (s.x r1) < sint32 (s.x r2) then 1 else 0) }

/-- Sltu — unsigned comparison of `x[r1]` and `x[r2]`. -/
def OwlCpu.Sltu (s : OwlCpu) (r0 r1 r2 : Nat) : OwlCpu :=
  { s with x := xset s.x r0 (if s.x r1 < s.x r2 then 1 else 0) }

/-- Xor — `x[r0] = x[r1] ^ x[r2]`. -/
def OwlCpu.Xor (s : OwlCpu) (r0 r1 r2 : Nat) : OwlCpu :=
  { s with x := xset s.x r0 (s.x r1 ^^^ s.x r2) }

/-- Srl — `x[r0] = x[r1] >> (x[r2] % 32)` (logical: both operands unsigned). -/
def OwlCpu.Srl (s : OwlCpu) (r0 r1 r2 : Nat) : OwlCpu :=
  { s with x := xset s.x r0 (s.x r1 >>> (s.x r2 % 32)) }

/-- Sra — `x[r0] = (int32_t)x[r1] >> ((int32_t)x[r2] % 32)` (arithmetic);
`%` on `int32_t` is truncating, so a negative shift count (undefined
behaviour in the source) yields `none`. -/
def OwlCpu.Sra (s : OwlCpu) (r0 r1 r2 : Nat) : Option OwlCpu :=
  let t := Int.tmod (sint32 (s.x r2)) 32
  if t < 0 then none
  else some { s with x := xset s.x r0 (u32 (sint32 (s.x r1) / ((2 : Int) ^ t.toNat))) }

/-- Or — `x[r0] = x[r1] | x[r2]`. -/
def OwlCpu.Or (s : OwlCpu) (r0 r1 r2 : Nat) : OwlCpu :=
  { s with x := xset s.x r0 (s.x r1 ||| s.x r2) }

/-- And — `x[r0] = x[r1] & x[r2]`. -/
def OwlCpu.And (s : OwlCpu) (r0 r1 r2 : Nat) : OwlCpu :=
  { s with x := xset s.x r0 (s.x r1 &&& s.x r2) }

/-- Slli — `x[r0] = x[r1] << shift`; a shift count of 32 or more is undefined
behaviour in the source, modelled as `none`. -/
def OwlCpu.Slli (s : OwlCpu) (r0 r1 shift : Nat) : Option OwlCpu :=
  if shift < 32 then some { s with x := xset s.x r0 ((s.x r1 <<< shift) % 4294967296) }
  else none

/-- Srli — despite its name the source computes `(int32_t)x[r1] >> shift`,
an arithmetic (sign-propagating) shift. -/
def OwlCpu.Srli (s : OwlCpu) (r0 r1 shift : Nat) : Option OwlCpu :=
  if shift < 32 then
    some { s with x := xset s.x r0 (u32 (sint32 (s.x r1) / ((2 : Int) ^ shift))) }
  else none

/-- Srai — despite its name the source computes `x[r1] >> shift` on
`uint32_t`, a logical (zero-filling) shift. -/
def OwlCpu.Srai (s : OwlCpu) (r0 r1 shift : Nat) : Option OwlCpu :=
  if shift < 32 then some { s with x := xset s.x r0 (s.x r1 >>> shift) }
  else none

/-- Beq — if `x[r0] == x[r1]` then `nextPc = pc + offs12`. -/
def OwlCpu.Beq (s : OwlCpu) (r0 r1 : Nat) (offs12 : Int) : OwlCpu :=
  if s.x r0 = s.x r1 then { s with nextPc := u32 ((s.pc : Int) + offs12) } else s

/-- Bne — if `x[r0] != x[r1]` then `nextPc = pc + offs12`. -/
def OwlCpu.Bne (s : OwlCpu) (r0 r1 : Nat) (offs12 : Int) : OwlCpu :=
  if s.x r0 ≠ s.x r1 then { s with nextPc := u32 ((s.pc : Int) + offs12) } else s

/-- Blt — signed `x[r0] < x[r1]`. -/
def OwlCpu.Blt (s : OwlCpu) (r0 r1 : Nat) (offs12 : Int) : OwlCpu :=
  if sint32 (s.x r0) < sint32 (s.x r1) then { s with nextPc := u32 ((s.pc : Int) + offs12) }
  else s

/-- Bge — signed `x[r0] >= x[r1]`. -/
def OwlCpu.Bge (s : OwlCpu) (r0 r1 : Nat) (offs12 : Int) : OwlCpu :=
  if sint32 (s.x r0) ≥ sint32 (s.x r1) then { s with nextPc := u32 ((s.pc : Int) + offs12) }
  else s

/-- Bltu — unsigned `x[r0] < x[r1]`. -/
def OwlCpu.Bltu (s : OwlCpu) (r0 r1 : Nat) (offs12 : Int) : OwlCpu :=
  if s.x r0 < s.x r1 then { s with nextPc := u32 ((s.pc : Int) + offs12) } else s

/-- Bgeu — unsigned `x[r0] >= x[r1]`. -/
def OwlCpu.Bgeu (s : OwlCpu) (r0 r1 : Nat) (offs12 : Int) : OwlCpu :=
  if s.x r0 ≥ s.x r1 then { s with nextPc := u32 ((s.pc : Int) + offs12) } else s

/-- Addi — `x[r0] = x[r1] + imm12`. -/
def OwlCpu.Addi (s : OwlCpu) (r0 r1 : Nat) (imm12 : Int) : OwlCpu :=
  { s with x := xset s.x r0 (u32 ((s.x r1 : Int) + imm12)) }

/-- Slti — the source computes `(int32_t)x[r1] < (int32_t)x[imm12]`: it
indexes the register file with the immediate.  An index outside 0..31 is
out-of-bounds (undefined behaviour), modelled as `none`. -/
def OwlCpu.Slti (s : OwlCpu) (r0 r1 : Nat) (imm12 : Int) : Option OwlCpu :=
  if 0 ≤ imm12 ∧ imm12 < 32 then
    some { s with
      x := xset s.x r0 (if sint32 (s.x r1) < sint32 (s.x imm12.toNat) then 1 else 0) }
  else none

/-- Sltiu — `x[r0] = x[r1] < uint32_t(imm12) ? 1 : 0`. -/
def OwlCpu.Sltiu (s : OwlCpu) (r0 r1 : Nat) (imm12 : Int) : OwlCpu :=
  { s with x := xset s.x r0 (if s.x r1 < u32 imm12 then 1 else 0) }

/-- Xori — `x[r0] = x[r1] ^ imm12`. -/
def OwlCpu.Xori (s : OwlCpu) (r0 r1 : Nat) (imm12 : Int) : OwlCpu :=
  { s with x := xset s.x r0 (s.x r1 ^^^ u32 imm12) }

/-- Ori — `x[r0] = x[r1] | imm12`. -/
def OwlCpu.Ori (s : OwlCpu) (r0 r1 : Nat) (imm12 : Int) : OwlCpu :=
  { s with x := xset s.x r0 (s.x r1 ||| u32 imm12) }

/-- Andi — `x[r0] = x[r1] & imm12`. -/
def OwlCpu.Andi (s : OwlCpu) (r0 r1 : Nat) (imm12 : Int) : OwlCpu :=
  { s with x := xset s.x r0 (s.x r1 &&& u32 imm12) }

/-- Lb — sign-extended byte load from `x[r1] + imm12`. -/
def OwlCpu.Lb (s : OwlCpu) (r0 : Nat) (imm12 : Int) (r1 : Nat) : Option OwlCpu :=
  (Read8 s.mem (u32 ((s.x r1 : Int) + imm12))).map fun b =>
    { s with x := xset s.x r0 (u32 (sext8 b)) }

/-- Lbu — zero-extended byte load from `x[r1] + imm12`. -/
def OwlCpu.Lbu (s : OwlCpu) (r0 : Nat) (imm12 : Int) (r1 : Nat) : Option OwlCpu :=
  (Read8 s.mem (u32 ((s.x r1 : Int) + imm12))).map fun b =>
    { s with x := xset s.x r0 (b % 256) }

/-- Lh — sign-extended half-word load from `x[r1] + imm12`. -/
def OwlCpu.Lh (s : OwlCpu) (r0 : Nat) (imm12 : Int) (r1 : Nat) : Option OwlCpu :=
  (Read16 s.mem (u32 ((s.x r1 : Int) + imm12))).map fun h =>
    { s with x := xset s.x r0 (u32 (sext16 h)) }

/-- Lhu — zero-extended half-word load from `x[r1] + imm12`. -/
def OwlCpu.Lhu (s : OwlCpu) (r0 : Nat) (imm12 : Int) (r1 : Nat) : Option OwlCpu :=
  (Read16 s.mem (u32 ((s.x r1 : Int) + imm12))).map fun h =>
    { s with x := xset s.x r0 (h % 65536) }

/-- Lw — word load from `x[r1] + imm12`. -/
def OwlCpu.Lw (s : OwlCpu) (r0 : Nat) (imm12 : Int) (r1 : Nat) : Option OwlCpu :=
  (Read32 s.mem (u32 ((s.x r1 : Int) + imm12))).map fun w =>
    { s with x := xset s.x r0 w }

/-- Sb — store the low byte of `x[r0]` at `x[r1] + imm12`. -/
def OwlCpu.Sb (s : OwlCpu) (r0 : Nat) (imm12 : Int) (r1 : Nat) : Option OwlCpu :=
  (Write8 s.mem (u32 ((s.x r1 : Int) + imm12)) (s.x r0 % 256)).map fun m =>
    { s with mem := m }

/-- Sh — store the low half-word of `x[r0]` at `x[r1] + imm12`. -/
def OwlCpu.Sh (s : OwlCpu) (r0 : Nat) (imm12 : Int) (r1 : Nat) : Option OwlCpu :=
  (Write16 s.mem (u32 ((s.x r1 : Int) + imm12)) (s.x r0 % 65536)).map fun m =>
    { s with mem := m }

/-- Sw — store `x[r0]` at `x[r1] + imm12`. -/
def OwlCpu.Sw (s : OwlCpu) (r0 : Nat) (imm12 : Int) (r1 : Nat) : Option OwlCpu :=
  (Write32 s.mem (u32 ((s.x r1 : Int) + imm12)) (s.x r0)).map fun m =>
    { s with mem := m }

/-- Fence — no-op. -/
def OwlCpu.Fence (s : OwlCpu) : OwlCpu := s

/-- Jalr — capture `x[r1]` first (`r0` and `r1` may be the same register),
then `x[r0] = nextPc` and `nextPc = captured + offs12`. -/
def OwlCpu.Jalr (s : OwlCpu) (r0 : Nat) (offs12 : Int) (r1 : Nat) : OwlCpu :=
  { s with x := xset s.x r0 s.nextPc, nextPc := u32 (sint32 (s.x r1) + offs12) }

/-- Jal — `x[r0] = nextPc; nextPc = pc + offs20`. -/
def OwlCpu.Jal (s : OwlCpu) (r0 : Nat) (offs20 : Int) : OwlCpu :=
  { s with x := xset s.x r0 s.nextPc, nextPc := u32 ((s.pc : Int) + offs20) }

/-- Lui — `x[r0] = uimm20` (the operand is already pre-shifted by decode). -/
def OwlCpu.Lui (s : OwlCpu) (r0 uimm20 : Nat) : OwlCpu :=
  { s with x := xset s.x r0 uimm20 }

/-- Auipc — `x[r0] = pc + uimm20`. -/
def OwlCpu.Auipc (s : OwlCpu) (r0 uimm20 : Nat) : OwlCpu :=
  { s with x := xset s.x r0 ((s.pc + uimm20) % 4294967296) }

/-- J — `nextPc = pc + offs20`. -/
def OwlCpu.J (s : OwlCpu) (offs20 : Int) : OwlCpu :=
  { s with nextPc := u32 ((s.pc : Int) + offs20) }

/-- Call — `x[ra] = nextPc; nextPc = pc + offs20` (note: the source does not
re-zero `x[0]` here; `ra` is register 1). -/
def OwlCpu.Call (s : OwlCpu) (offs20 : Int) : OwlCpu :=
  { s with
    x := (fun i => if i = 1 then s.nextPc else s.x i),
    nextPc := u32 ((s.pc : Int) + offs20) }

/-- Ret — `nextPc = x[ra]`. -/
def OwlCpu.Ret (s : OwlCpu) : OwlCpu := { s with nextPc := s.x 1 }

/-- Li — `x[r0] = imm12`. -/
def OwlCpu.Li (s : OwlCpu) (r0 : Nat) (imm12 : Int) : OwlCpu :=
  { s with x := xset s.x r0 (u32 imm12) }

/-- Mv — `x[r0] = x[r1]`. -/
def OwlCpu.Mv (s : OwlCpu) (r0 r1 : Nat) : OwlCpu :=
  { s with x := xset s.x r0 (s.x r1) }

/-- Illegal — halt. -/
def OwlCpu.Illegal (s : OwlCpu) (_ins : Nat) : OwlCpu :=
  { s with done := true }

/-! The instruction-visitor operation set (instruction_handler.h): one
constructor per mnemonic, with the operand tuple the dispatcher passes. -/

inductive Instr where
  | Ecall | Ebreak
  | Add (r0 r1 r2 : Nat) | Sub (r0 r1 r2 : Nat) | Sll (r0 r1 r2 : Nat)
  | Slt (r0 r1 r2 : Nat) | Sltu (r0 r1 r2 : Nat) | Xor (r0 r1 r2 : Nat)
  | Srl (r0 r1 r2 : Nat) | Sra (r0 r1 r2 : Nat) | Or (r0 r1 r2 : Nat)
  | And (r0 r1 r2 : Nat)
  | Slli (r0 r1 sh : Nat) | Srli (r0 r1 sh : Nat) | Srai (r0 r1 sh : Nat)
  | Beq (r0 r1 : Nat) (offs : Int) | Bne (r0 r1 : Nat) (offs : Int)
  | Blt (r0 r1 : Nat) (offs : Int) | Bge (r0 r1 : Nat) (offs : Int)
  | Bltu (r0 r1 : Nat) (offs : Int) | Bgeu (r0 r1 : Nat) (offs : Int)
  | Addi (r0 r1 : Nat) (imm : Int) | Slti (r0 r1 : Nat) (imm : Int)
  | Sltiu (r0 r1 : Nat) (imm : Int) | Xori (r0 r1 : Nat) (imm : Int)
  | Ori (r0 r1 : Nat) (imm : Int) | Andi (r0 r1 : Nat) (imm : Int)
  | Lb (r0 : Nat) (imm : Int) (r1 : Nat) | Lbu (r0 : Nat) (imm : Int) (r1 : Nat)
  | Lh (r0 : Nat) (imm : Int) (r1 : Nat) | Lhu (r0 : Nat) (imm : Int) (r1 : Nat)
  | Lw (r0 : Nat) (imm : Int) (r1 : Nat)
  | Sb (r0 : Nat) (imm : Int) (r1 : Nat) | Sh (r0 : Nat) (imm : Int) (r1 : Nat)
  | Sw (r0 : Nat) (imm : Int) (r1 : Nat)
  | Fence
  | Jalr (r0 : Nat) (offs : Int) (r1 : Nat) | Jal (r0 : Nat) (offs : Int)
  | Lui (r0 uimm : Nat) | Auipc (r0 uimm : Nat)
  | J (offs : Int) | Call (offs : Int) | Ret
  | Li (r0 : Nat) (imm : Int) | Mv (r0 r1 : Nat)
  | Illegal (ins : Nat)

/-- Execute one visitor operation on the executor (`OwlCpu`): each arm calls
the corresponding method; the methods whose source can hit undefined
behaviour return `none` there. -/
def execInstr : Instr → OwlCpu → Option OwlCpu
  | .Ecall, s => some s.Ecall
  | .Ebreak, s => some s.Ebreak
  | .Add r0 r1 r2, s => some (s.Add r0 r1 r2)
  | .Sub r0 r1 r2, s => some (s.Sub r0 r1 r2)
  | .Sll r0 r1 r2, s => some (s.Sll r0 r1 r2)
  | .Slt r0 r1 r2, s => some (s.Slt r0 r1 r2)
  | .Sltu r0 r1 r2, s => some (s.Sltu r0 r1 r2)
  | .Xor r0 r1 r2, s => some (s.Xor r0 r1 r2)
  | .Srl r0 r1 r2, s => some (s.Srl r0 r1 r2)
  | .Sra r0 r1 r2, s => s.Sra r0 r1 r2
  | .Or r0 r1 r2, s => some (s.Or r0 r1 r2)
  | .And r0 r1 r2, s => some (s.And r0 r1 r2)
  | .Slli r0 r1 sh, s => s.Slli r0 r1 sh
  | .Srli r0 r1 sh, s => s.Srli r0 r1 sh
  | .Srai r0 r1 sh, s => s.Srai r0 r1 sh
  | .Beq r0 r1 offs, s => some (s.Beq r0 r1 offs)
  | .Bne r0 r1 offs, s => some (s.Bne r0 r1 offs)
  | .Blt r0 r1 offs, s => some (s.Blt r0 r1 offs)
  | .Bge r0 r1 offs, s => some (s.Bge r0 r1 offs)
  | .Bltu r0 r1 offs, s => some (s.Bltu r0 r1 offs)
  | .Bgeu r0 r1 offs, s => some (s.Bgeu r0 r1 offs)
  | .Addi r0 r1 imm, s => some (s.Addi r0 r1 imm)
  | .Slti r0 r1 imm, s => s.Slti r0 r1 imm
  | .Sltiu r0 r1 imm, s => some (s.Sltiu r0 r1 imm)
  | .Xori r0 r1 imm, s => some (s.Xori r0 r1 imm)
  | .Ori r0 r1 imm, s => some (s.Ori r0 r1 imm)
  | .Andi r0 r1 imm, s => some (s.Andi r0 r1 imm)
  | .Lb r0 imm r1, s => s.Lb r0 imm r1
  | .Lbu r0 imm r1, s => s.Lbu r0 imm r1
  | .Lh r0 imm r1, s => s.Lh r0 imm r1
  | .Lhu r0 imm r1, s => s.Lhu r0 imm r1
  | .Lw r0 imm r1, s => s.Lw r0 imm r1
  | .Sb r0 imm r1, s => s.Sb r0 imm r1
  | .Sh r0 imm r1, s => s.Sh r0 imm r1
  | .Sw r0 imm r1, s => s.Sw r0 imm r1
  | .Fence, s => some s.Fence
  | .Jalr r0 offs r1, s => some (s.Jalr r0 offs r1)
  | .Jal r0 offs, s => some (s.Jal r0 offs)
  | .Lui r0 uimm, s => some (s.Lui r0 uimm)
  | .Auipc r0 uimm, s => some (s.Auipc r0 uimm)
  | .J offs, s => some (s.J offs)
  | .Call offs, s => some (s.Call offs)
  | .Ret, s => some s.Ret
  | .Li r0 imm, s => some (s.Li r0 imm)
  | .Mv r0 r1, s => some (s.Mv r0 r1)
  | .Illegal ins, s => some (s.Illegal ins)

/-- DispatchOwl — extract the opcode tag from bits [6:0] of the word, decode
the operand fields and invoke the matching executor method; unknown tags
(including 0) go to `Illegal`. -/
def DispatchOwl (cpu : OwlCpu) (ins : Nat) : Option OwlCpu :=
  match ins &&& 0x7f with
  | 1 => some cpu.Ecall
  | 2 => some cpu.Ebreak
  | 3 => some (cpu.Add (decode.r0 ins) (decode.r1 ins) (decode.r2 ins))
  | 4 => some (cpu.Sub (decode.r0 ins) (decode.r1 ins) (decode.r2 ins))
  | 5 => some (cpu.Sll (decode.r0 ins) (decode.r1 ins) (decode.r2 ins))
  | 6 => some (cpu.Slt (decode.r0 ins) (decode.r1 ins) (decode.r2 ins))
  | 7 => some (cpu.Sltu (decode.r0 ins) (decode.r1 ins) (decode.r2 ins))
  | 8 => some (cpu.Xor (decode.r0 ins) (decode.r1 ins) (decode.r2 ins))
  | 9 => some (cpu.Srl (decode.r0 ins) (decode.r1 ins) (decode.r2 ins))
  | 10 => cpu.Sra (decode.r0 ins) (decode.r1 ins) (decode.r2 ins)
  | 11 => some (cpu.Or (decode.r0 ins) (decode.r1 ins) (decode.r2 ins))
  | 12 => some (cpu.And (decode.r0 ins) (decode.r1 ins) (decode.r2 ins))
  | 13 => cpu.Slli (decode.r0 ins) (decode.r1 ins) (decode.shift ins)
  | 14 => cpu.Srli (decode.r0 ins) (decode.r1 ins) (decode.shift ins)
  | 15 => cpu.Srai (decode.r0 ins) (decode.r1 ins) (decode.shift ins)
  | 16 => some (cpu.Beq (decode.r0 ins) (decode.r1 ins) (sint32 (decode.offs12 ins)))
  | 17 => some (cpu.Bne (decode.r0 ins) (decode.r1 ins) (sint32 (decode.offs12 ins)))
  | 18 => some (cpu.Blt (decode.r0 ins) (decode.r1 ins) (sint32 (decode.offs12 ins)))
  | 19 => some (cpu.Bge (decode.r0 ins) (decode.r1 ins) (sint32 (decode.offs12 ins)))
  | 20 => some (cpu.Bltu (decode.r0 ins) (decode.r1 ins) (sint32 (decode.offs12 ins)))
  | 21 => some (cpu.Bgeu (decode.r0 ins) (decode.r1 ins) (sint32 (decode.offs12 ins)))
  | 22 => some (cpu.Addi (decode.r0 ins) (decode.r1 ins) (sint32 (decode.imm12 ins)))
  | 23 => cpu.Slti (decode.r0 ins) (decode.r1 ins) (sint32 (decode.imm12 ins))
  | 24 => some (cpu.Sltiu (decode.r0 ins) (decode.r1 ins) (sint32 (decode.imm12 ins)))
  | 25 => some (cpu.Xori (decode.r0 ins) (decode.r1 ins) (sint32 (decode.imm12 ins)))
  | 26 => some (cpu.Ori (decode.r0 ins) (decode.r1 ins) (sint32 (decode.imm12 ins)))
  | 27 => some (cpu.Andi (decode.r0 ins) (decode.r1 ins) (sint32 (decode.imm12 ins)))
  | 28 => cpu.Lb (decode.r0 ins) (sint32 (decode.imm12 ins)) (decode.r1 ins)
  | 29 => cpu.Lbu (decode.r0 ins) (sint32 (decode.imm12 ins)) (decode.r1 ins)
  | 30 => cpu.Lh (decode.r0 ins) (sint32 (decode.imm12 ins)) (decode.r1 ins)
  | 31 => cpu.Lhu (decode.r0 ins) (sint32 (decode.imm12 ins)) (decode.r1 ins)
  | 32 => cpu.Lw (decode.r0 ins) (sint32 (decode.imm12 ins)) (decode.r1 ins)
  | 33 => cpu.Sb (decode.r0 ins) (sint32 (decode.imm12 ins)) (decode.r1 ins)
  | 34 => cpu.Sh (decode.r0 ins) (sint32 (decode.imm12 ins)) (decode.r1 ins)
  | 35 => cpu.Sw (decode.r0 ins) (sint32 (decode.imm12 ins)) (decode.r1 ins)
  | 36 => some cpu.Fence
  | 37 => some (cpu.Jalr (decode.r0 ins) (sint32 (decode.offs12 ins)) (decode.r1 ins))
  | 38 => some (cpu.Jal (decode.r0 ins) (sint32 (decode.offs20 ins)))
  | 39 => some (cpu.Lui (decode.r0 ins) (decode.uimm20 ins))
  | 40 => some (cpu.Auipc (decode.r0 ins) (decode.uimm20 ins))
  | 41 => some (cpu.J (sint32 (decode.offs20 ins)))
  | 42 => some (cpu.Call (sint32 (decode.offs20 ins)))
  | 43 => some cpu.Ret
  | 44 => some (cpu.Li (decode.r0 ins) (sint32 (decode.imm12 ins)))
  | 45 => some (cpu.Mv (decode.r0 ins) (decode.r1 ins))
  | _ => some (cpu.Illegal ins)

/-- C3: starting from any VM state in which `x[0] = 0`, executing any single
visitor operation of the executor (any operands, any memory contents) leaves
`x[0] = 0`; and the executor's register-write primitive always leaves
register 0 reading as zero, whatever register is written. -/
theorem x0_hardwired_zero :
    (∀ (i : Instr) (s t : OwlCpu), s.x 0 = 0 → execInstr i s = some t → t.x 0 = 0)
    ∧ ∀ (x : Nat → Nat) (r v : Nat), xset x r v 0 = 0 := by
  constructor
  · intro i s t h0 hexec
    cases i with
    | Ecall =>
      simp only [execInstr, Option.some.injEq] at hexec
      subst hexec
      unfold OwlCpu.Ecall
      split_ifs <;> simpa using h0
    | Ebreak =>
      simp only [execInstr, Option.some.injEq] at hexec
      subst hexec
      simpa [OwlCpu.Ebreak] using h0
    | Add a b c =>
      simp only [execInstr, Option.some.injEq] at hexec
      subst hexec
      simp [OwlCpu.Add, xset]
    | Sub a b c =>
      simp only [execInstr, Option.some.injEq] at hexec
      subst hexec
      simp [OwlCpu.Sub, xset]
    | Sll a b c =>
      simp only [execInstr, Option.some.injEq] at hexec
      subst hexec
      simp [OwlCpu.Sll, xset]
    | Slt a b c =>
      simp only [execInstr, Option.some.injEq] at hexec
      subst hexec
      simp [OwlCpu.Slt, xset]
    | Sltu a b c =>
      simp only [execInstr, Option.some.injEq] at hexec
      subst hexec
      simp [OwlCpu.Sltu, xset]
    | Xor a b c =>
      simp only [execInstr, Option.some.injEq] at hexec
      subst hexec
      simp [OwlCpu.Xor, xset]
    | Srl a b c =>
      simp only [execInstr, Option.some.injEq] at hexec
      subst hexec
      simp [OwlCpu.Srl, xset]
    | Sra a b c =>
      simp only [execInstr, OwlCpu.Sra] at hexec
      split at hexec
      · exact Option.noConfusion hexec
      · simp only [Option.some.injEq] at hexec
        subst hexec
        simp [xset]
    | Or a b c =>
      simp only [execInstr, Option.some.injEq] at hexec
      subst hexec
      simp [OwlCpu.Or, xset]
    | And a b c =>
      simp only [execInstr, Option.some.injEq] at hexec
      subst hexec
      simp [OwlCpu.And, xset]
    | Slli a b sh =>
      simp only [execInstr, OwlCpu.Slli] at hexec
      split at hexec
      · simp only [Option.some.injEq] at hexec
        subst hexec
        simp [xset]
      · exact Option.noConfusion hexec
    | Srli a b sh =>
      simp only [execInstr, OwlCpu.Srli] at hexec
      split at hexec
      · simp only [Option.some.injEq] at hexec
        subst hexec
        simp [xset]
      · exact Option.noConfusion hexec
    | Srai a b sh =>
      simp only [execInstr, OwlCpu.Srai] at hexec
      split at hexec
      · simp only [Option.some.injEq] at hexec
        subst hexec
        simp [xset]
      · exact Option.noConfusion hexec
    | Beq a b offs =>
      simp only [execInstr, Option.some.injEq] at hexec
      subst hexec
      unfold OwlCpu.Beq
      split_ifs <;> simpa using h0
    | Bne a b offs =>
      simp only [execInstr, Option.some.injEq] at hexec
      subst hexec
      unfold OwlCpu.Bne
      split_ifs <;> simpa using h0
    | Blt a b offs =>
      simp only [execInstr, Option.some.injEq] at hexec
      subst hexec
      unfold OwlCpu.Blt
      split_ifs <;> simpa using h0
    | Bge a b offs =>
      simp only [execInstr, Option.some.injEq] at hexec
      subst hexec
      unfold OwlCpu.Bge
      split_ifs <;> simpa using h0
    | Bltu a b offs =>
      simp only [execInstr, Option.some.injEq] at hexec
      subst hexec
      unfold OwlCpu.Bltu
      split_ifs <;> simpa using h0
    | Bgeu a b offs =>
      simp only [execInstr, Option.some.injEq] at hexec
      subst hexec
      unfold OwlCpu.Bgeu
      split_ifs <;> simpa using h0
    | Addi a b imm =>
      simp only [execInstr, Option.some.injEq] at hexec
      subst hexec
      simp [OwlCpu.Addi, xset]
    | Slti a b imm =>
      simp only [execInstr, OwlCpu.Slti] at hexec
      split at hexec
      · simp only [Option.some.injEq] at hexec
        subst hexec
        simp [xset]
      · exact Option.noConfusion hexec
    | Sltiu a b imm =>
      simp only [execInstr, Option.some.injEq] at hexec
      subst hexec
      simp [OwlCpu.Sltiu, xset]
    | Xori a b imm =>
      simp only [execInstr, Option.some.injEq] at hexec
      subst hexec
      simp [OwlCpu.Xori, xset]
    | Ori a b imm =>
      simp only [execInstr, Option.some.injEq] at hexec
      subst hexec
      simp [OwlCpu.Ori, xset]
    | Andi a b imm =>
      simp only [execInstr, Option.some.injEq] at hexec
      subst hexec
      simp [OwlCpu.Andi, xset]
    | Lb a imm b =>
      simp only [execInstr, OwlCpu.Lb, Option.map_eq_some'] at hexec
      obtain ⟨v, hv, hvt⟩ := hexec
      subst hvt
      simp [xset]
    | Lbu a imm b =>
      simp only [execInstr, OwlCpu.Lbu, Option.map_eq_some'] at hexec
      obtain ⟨v, hv, hvt⟩ := hexec
      subst hvt
      simp [xset]
    | Lh a imm b =>
      simp only [execInstr, OwlCpu.Lh, Option.map_eq_some'] at hexec
      obtain ⟨v, hv, hvt⟩ := hexec
      subst hvt
      simp [xset]
    | Lhu a imm b =>
      simp only [execInstr, OwlCpu.Lhu, Option.map_eq_some'] at hexec
      obtain ⟨v, hv, hvt⟩ := hexec
      subst hvt
      simp [xset]
    | Lw a imm b =>
      simp only [execInstr, OwlCpu.Lw, Option.map_eq_some'] at hexec
      obtain ⟨v, hv, hvt⟩ := hexec
      subst hvt
      simp [xset]
    | Sb a imm b =>
      simp only [execInstr, OwlCpu.Sb, Option.map_eq_some'] at hexec
      obtain ⟨m, hm, hmt⟩ := hexec
      subst hmt
      simpa using h0
    | Sh a imm b =>
      simp only [execInstr, OwlCpu.Sh, Option.map_eq_some'] at hexec
      obtain ⟨m, hm, hmt⟩ := hexec
      subst hmt
      simpa using h0
    | Sw a imm b =>
      simp only [execInstr, OwlCpu.Sw, Option.map_eq_some'] at hexec
      obtain ⟨m, hm, hmt⟩ := hexec
      subst hmt
      simpa using h0
    | Fence =>
      simp only [execInstr, Option.some.injEq] at hexec
      subst hexec
      simpa [OwlCpu.Fence] using h0
    | Jalr a off b =>
      simp only [execInstr, Option.some.injEq] at hexec
      subst hexec
      simp [OwlCpu.Jalr, xset]
    | Jal a off =>
      simp only [execInstr, Option.some.injEq] at hexec
      subst hexec
      simp [OwlCpu.Jal, xset]
    | Lui a u =>
      simp only [execInstr, Option.some.injEq] at hexec
      subst hexec
      simp [OwlCpu.Lui, xset]
    | Auipc a u =>
      simp only [execInstr, Option.some.injEq] at hexec
      subst hexec
      simp [OwlCpu.Auipc, xset]
    | J off =>
      simp only [execInstr, Option.some.injEq] at hexec
      subst hexec
      simpa [OwlCpu.J] using h0
    | Call off =>
      simp only [execInstr, Option.some.injEq] at hexec
      subst hexec
      simpa [OwlCpu.Call] using h0
    | Ret =>
      simp only [execInstr, Option.some.injEq] at hexec
      subst hexec
      simpa [OwlCpu.Ret] using h0
    | Li a imm =>
      simp only [execInstr, Option.some.injEq] at hexec
      subst hexec
      simp [OwlCpu.Li, xset]
    | Mv a b =>
      simp only [execInstr, Option.some.injEq] at hexec
      subst hexec
      simp [OwlCpu.Mv, xset]
    | Illegal w =>
      simp only [execInstr, Option.some.injEq] at hexec
      subst hexec
      simpa [OwlCpu.Illegal] using h0
  · intro x r v
    simp [xset]

/-- Witness for C3: a `Mv` writing to register 0 at a concrete state. -/
theorem x0_hardwired_zero_witness :
    (OwlCpu.init []).x 0 = 0
    ∧ ((execInstr (Instr.Mv 0 5) (OwlCpu.init [])).getD (OwlCpu.init [])).x 0 = 0 :=
  ⟨rfl, x0_hardwired_zero.1 (Instr.Mv 0 5) (OwlCpu.init [])
    ((execInstr (Instr.Mv 0 5) (OwlCpu.init [])).getD (OwlCpu.init [])) rfl rfl⟩

/-- C4 (evaluation at the failing input): with every register zero, executing
the executor's `Slti(1, 2, 5)` stores 0 in `x[1]`, although comparing
`x[2] = 0` against the immediate 5 itself would give 1: the source indexes
the register file with the immediate (`x[imm12]`) instead of using the
immediate.  A second input shows the stored value tracking `x[5]`, not the
immediate. -/
theorem slti_uses_register_file :
    (execInstr (Instr.Slti 1 2 5) (OwlCpu.init [])).map (fun t => t.x 1) = some 0
    ∧ (execInstr (Instr.Slti 1 2 5)
        { OwlCpu.init [] with x := fun i => if i = 2 then 10 else if i = 5 then 99 else 0
        }).map (fun t => t.x 1) = some 1 := by
  exact ⟨by decide, by decide⟩

/-- The concrete machine state for C5: syscall selector 2 (neither Exit nor
PrintFib) in `x[a7]`. -/
def unknownSyscallState : OwlCpu :=
  { OwlCpu.init [] with x := fun i => if i = 17 then 2 else 0 }

/-- C5 (evaluation at the failing input): executing `Ecall` with the unknown
selector 2 leaves the state entirely unchanged — no error is surfaced, no
output is produced, and the done flag stays false, so the VM continues
silently. -/
theorem ecall_unknown_selector_silent :
    OwlCpu.Ecall unknownSyscallState = unknownSyscallState
    ∧ unknownSyscallState.done = false
    ∧ unknownSyscallState.out = []
    ∧ execInstr Instr.Ecall unknownSyscallState = some unknownSyscallState :=
  ⟨rfl, rfl, rfl, rfl⟩

/-- C6: from any state reached immediately after a fetch
(`nextPc = pc + 4`), `Jalr(r0, offs12, r1)` sets `nextPc` to the
pre-instruction value of `x[r1]` plus `offs12` (32-bit wraparound) — also
when `r0` and `r1` name the same register, since the conclusion reads `x[r1]`
in the pre-state — and performs the register write `x[r0] ← pc + 4` (under
the executor's global convention that writes to register 0 are discarded:
`x[0]` reads 0 afterwards); `pc`, `done` and memory are untouched. -/
theorem jalr_spec (s : OwlCpu) (r0 r1 : Nat) (offs : Int)
    (hfetch : s.nextPc = (s.pc + 4) % 4294967296) :
    (s.Jalr r0 offs r1).nextPc = u32 ((s.x r1 : Int) + offs)
    ∧ (s.Jalr r0 offs r1).x 0 = 0
    ∧ (r0 ≠ 0 → (s.Jalr r0 offs r1).x r0 = (s.pc + 4) % 4294967296)
    ∧ (∀ i, i ≠ 0 → i ≠ r0 → (s.Jalr r0 offs r1).x i = s.x i)
    ∧ (s.Jalr r0 offs r1).pc = s.pc
    ∧ (s.Jalr r0 offs r1).done = s.done
    ∧ (s.Jalr r0 offs r1).mem = s.mem := by
  refine ⟨?_, ?_, ?_, ?_, rfl, rfl, rfl⟩
  · show u32 (sint32 (s.x r1) + offs) = u32 ((s.x r1 : Int) + offs)
    unfold u32 sint32
    split <;> omega
  · simp [OwlCpu.Jalr, xset]
  · intro hr0
    simp [OwlCpu.Jalr, xset, hr0, hfetch]
  · intro i hi0 hir0
    simp [OwlCpu.Jalr, xset, hi0, hir0]

/-- Witness for C6 at a concrete state with `nextPc = pc + 4 = 4`. -/
theorem jalr_spec_witness :
    (OwlCpu.Jalr { OwlCpu.init [] with nextPc := 4 } 5 3 6).nextPc
      = u32 ((({ OwlCpu.init [] with nextPc := 4 } : OwlCpu).x 6 : Int) + 3) :=
  (jalr_spec { OwlCpu.init [] with nextPc := 4 } 5 6 3 rfl).1

/-- C10: the two immediate right-shift mnemonics have exchanged semantics
relative to their register-register counterparts: for any 5-bit shift amount
`sh` held in `x[r2]`, `Srai(r0, r1, sh)` behaves exactly like
`Srl(r0, r1, r2)` (a zero-filling logical shift: the result is
`x[r1] >> sh`, and for `sh ≥ 1` bit 31 is clear even when `x[r1] ≥ 2^31`),
while `Srli(r0, r1, sh)` behaves exactly like `Sra(r0, r1, r2)` (an
arithmetic shift: for `x[r1] ≥ 2^31` the result is
`x[r1]/2^sh + (2^32 − 2^(32−sh))`, i.e. the sign bit is propagated). -/
theorem srai_srli_swapped (s : OwlCpu) (r0 r1 r2 sh : Nat)
    (hsh : sh < 32) (hr2 : s.x r2 = sh) (hwf : s.x r1 < 4294967296) :
    s.Srai r0 r1 sh = some (s.Srl r0 r1 r2)
    ∧ s.Srli r0 r1 sh = s.Sra r0 r1 r2
    ∧ (r0 ≠ 0 → ((s.Srai r0 r1 sh).getD s).x r0 = s.x r1 >>> sh)
    ∧ (r0 ≠ 0 → 2147483648 ≤ s.x r1 → 1 ≤ sh →
        ((s.Srai r0 r1 sh).getD s).x r0 < 2147483648)
    ∧ (r0 ≠ 0 → 2147483648 ≤ s.x r1 →
        ((s.Srli r0 r1 sh).getD s).x r0
          = s.x r1 / 2 ^ sh + (4294967296 - 2 ^ (32 - sh))) := by
  refine ⟨?_, ?_, ?_, ?_, ?_⟩
  · simp [OwlCpu.Srai, OwlCpu.Srl, hsh, hr2, Nat.mod_eq_of_lt hsh]
  · have hs2 : sint32 (s.x r2) = (sh : Int) := by
      unfold sint32
      rw [hr2, if_pos (by omega)]
    unfold OwlCpu.Srli OwlCpu.Sra
    rw [if_pos hsh, hs2, Int.tmod_eq_of_lt (by positivity) (by exact_mod_cast hsh),
      if_neg (by omega)]
    simp
  · intro hr0
    simp [OwlCpu.Srai, hsh, xset, hr0]
  · intro hr0 hhi hsh1
    have hv : ((s.Srai r0 r1 sh).getD s).x r0 = s.x r1 >>> sh := by
      simp [OwlCpu.Srai, hsh, xset, hr0]
    rw [hv, Nat.shiftRight_eq_div_pow]
    have h2 : (2 : Nat) ≤ 2 ^ sh := by
      calc (2 : Nat) = 2 ^ 1 := by norm_num
      _ ≤ 2 ^ sh := Nat.pow_le_pow_right (by norm_num) hsh1
    have hmono : s.x r1 / 2 ^ sh ≤ s.x r1 / 2 := Nat.div_le_div_left h2 (by norm_num)
    omega
  · intro hr0 hhi
    have hv : ((s.Srli r0 r1 sh).getD s).x r0
        = u32 (sint32 (s.x r1) / ((2 : Int) ^ sh)) := by
      simp [OwlCpu.Srli, hsh, xset, hr0]
    rw [hv]
    have hs1 : sint32 (s.x r1) = (s.x r1 : Int) - 4294967296 := by
      unfold sint32
      rw [if_neg (by omega)]
    have he : 32 - sh + sh = 32 := by omega
    have hp : ((2 : Int) ^ (32 - sh)) * 2 ^ sh = 4294967296 := by
      rw [← pow_add, he]
      norm_num
    have hcast : ((s.x r1 / 2 ^ sh : Nat) : Int) = (s.x r1 : Int) / (2 : Int) ^ sh := by
      push_cast
      rfl
    have hc : (((2 : Nat) ^ (32 - sh) : Nat) : Int) = (2 : Int) ^ (32 - sh) := by
      push_cast
      ring
    have key : ((s.x r1 : Int) - 4294967296) / ((2 : Int) ^ sh)
        = ((s.x r1 / 2 ^ sh : Nat) : Int) - (((2 : Nat) ^ (32 - sh) : Nat) : Int) := by
      rw [hcast, hc]
      have hstep := Int.add_mul_ediv_right (s.x r1 : Int) (-(2 ^ (32 - sh)))
        (show ((2 : Int) ^ sh) ≠ 0 by positivity)
      calc ((s.x r1 : Int) - 4294967296) / ((2 : Int) ^ sh)
          = ((s.x r1 : Int) + -(2 ^ (32 - sh)) * 2 ^ sh) / ((2 : Int) ^ sh) := by
            rw [neg_mul, hp]
            ring_nf
        _ = (s.x r1 : Int) / 2 ^ sh + -(2 ^ (32 - sh)) := hstep
        _ = (s.x r1 : Int) / 2 ^ sh - 2 ^ (32 - sh) := by ring
    rw [hs1, key]
    have hq : s.x r1 / 2 ^ sh < 2 ^ (32 - sh) := by
      apply Nat.div_lt_of_lt_mul
      calc s.x r1 < 4294967296 := hwf
      _ = 2 ^ sh * 2 ^ (32 - sh) := by
          rw [← pow_add, show sh + (32 - sh) = 32 by omega]
          norm_num
    have hple : (2 : Nat) ^ (32 - sh) ≤ 4294967296 := by
      calc (2 : Nat) ^ (32 - sh) ≤ 2 ^ 32 := Nat.pow_le_pow_right (by norm_num) (by omega)
      _ = 4294967296 := by norm_num
    unfold u32
    generalize hgp : (2 : Nat) ^ (32 - sh) = p at hq hple ⊢
    generalize hgq : s.x r1 / 2 ^ sh = q at hq ⊢
    omega

/-- The concrete state for the C10 witness: `x[7] = 3` (shift amount) and a
negative 32-bit value in `x[6]`. -/
def swapState : OwlCpu :=
  { OwlCpu.init [] with x := fun i => if i = 7 then 3 else if i = 6 then 2147483650 else 0 }

/-- Witness for C10: `Srai` coincides with `Srl`, and `Srli` with `Sra`, at a
concrete state and shift. -/
theorem srai_srli_swapped_witness :
    OwlCpu.Srai swapState 5 6 3 = some (OwlCpu.Srl swapState 5 6 7)
    ∧ OwlCpu.Srli swapState 5 6 3 = OwlCpu.Sra swapState 5 6 7 :=
  ⟨(srai_srli_swapped swapState 5 6 7 3 (by decide) (by decide) (by decide)).1,
   (srai_srli_swapped swapState 5 6 7 3 (by decide) (by decide) (by decide)).2.1⟩

/-! The assembler (assembler.h): a growing buffer of 32-bit words, a current
byte offset, a vector of label addresses (sentinel `badAddress` while
unbound), and the pending fixups (a multimap keyed by label id, modelled as
an insertion-ordered list of pairs). -/

/-- Assembler::FixupType. -/
inductive FixupType where
  | offs12 | offs20 | hi20 | lo12
  deriving DecidableEq

/-- Assembler::Fixup — the address containing the data to be fixed up, and
the kind of patch. -/
structure Fixup where
  target : Nat
  type : FixupType
  deriving DecidableEq

/-- Assembler::badAddress — `static_cast<uint32_t>(-1)`. -/
def badAddress : Nat := 4294967295

/-- The assembler state. -/
structure Assembler where
  code : List Nat
  current : Nat
  labels : List Nat
  fixups : List (Nat × Fixup)
  deriving DecidableEq

/-- Assembler::AddressOf — the label's address if it is bound, else nothing
(indexing `labels_` out of range is undefined behaviour, also nothing). -/
def Assembler.AddressOf (a : Assembler) (label : Nat) : Option Nat :=
  match a.labels[label]? with
  | some result => if result ≠ badAddress then some result else none
  | none => none

/-- Assembler::AddFixup — record a fixup for `label` at the current offset. -/
def Assembler.AddFixup (a : Assembler) (type : FixupType) (label : Nat) : Assembler :=
  { a with fixups := a.fixups ++ [(label, { target := a.current, type := type })] }

/-- Assembler::Emit — append the word and advance `current_` by 4. -/
def Assembler.Emit (a : Assembler) (u : Nat) : Assembler :=
  { a with code := a.code ++ [u], current := (a.current + 4) % 4294967296 }

/-- Assembler::Code — the buffer if the fixup multimap is empty, otherwise
the "There are unbound labels." failure (the method is `const`: the
assembler state is unchanged either way). -/
def Assembler.Code (a : Assembler) : Option (List Nat) :=
  if a.fixups = [] then some a.code else none

/-- Assembler::Branch (numeric-offset overload). -/
def Assembler.BranchOffs (a : Assembler) (op : Opcode) (r0 r1 : Nat) (offs12 : Int) :
    Assembler :=
  a.Emit (wordBranch op r0 r1 offs12)

/-- Assembler::Branch (label overload): if the label is bound, emit with the
relative offset `*addr - Current()` (uint32 wraparound, then converted to the
`int32_t` parameter); otherwise record an offs12 fixup and emit with offset
0. -/
def Assembler.BranchLabel (a : Assembler) (op : Opcode) (r0 r1 label : Nat) : Assembler :=
  match a.AddressOf label with
  | some addr => a.BranchOffs op r0 r1 (sint32 (u32 ((addr : Int) - (a.current : Int))))
  | none => (a.AddFixup FixupType.offs12 label).BranchOffs op r0 r1 0

/-- Assembler::Jump (numeric-offset overload, `J`/`Call`). -/
def Assembler.JumpOffs (a : Assembler) (op : Opcode) (offs20 : Int) : Assembler :=
  a.Emit (wordJ20 op offs20)

/-- Assembler::Jump (label overload). -/
def Assembler.JumpLabel (a : Assembler) (op : Opcode) (label : Nat) : Assembler :=
  match a.AddressOf label with
  | some addr => a.JumpOffs op (sint32 (u32 ((addr : Int) - (a.current : Int))))
  | none => (a.AddFixup FixupType.offs20 label).JumpOffs op 0

/-- C8: `Code()` yields the assembled buffer exactly when the fixup multimap
is empty; with any outstanding fixup it fails (the "unbound labels" error)
and no buffer is yielded.  `Code()` is a `const` observer, so the assembler
state is unchanged in both cases. -/
theorem code_only_when_no_fixups (a : Assembler) :
    (a.Code = some a.code ↔ a.fixups = []) ∧ (a.fixups ≠ [] → a.Code = none) := by
  unfold Assembler.Code
  constructor
  · constructor
    · intro h
      by_contra hne
      rw [if_neg hne] at h
      exact Option.noConfusion h
    · intro h
      rw [if_pos h]
  · intro h
    rw [if_neg h]

/-- Witness for C8: a concrete assembler with one outstanding fixup yields no
buffer. -/
theorem code_only_when_no_fixups_witness :
    ({ code := [7], current := 4, labels := [badAddress],
       fixups := [(0, { target := 0, type := FixupType.offs12 })] } : Assembler).Code
      = none :=
  (code_only_when_no_fixups _).2 (by decide)

/-- C7: for every branch and jump mnemonic, emitting with a label already
bound to address `A` at current offset `C` appends exactly the word the
numeric-offset overload emits for the relative offset `A - C`, and records
no fixup. -/
theorem branch_label_bound_eq_numeric (a : Assembler) (op : Opcode)
    (r0 r1 lab A : Nat) (hbound : a.labels[lab]? = some A) (hA : A ≠ badAddress) :
    a.BranchLabel op r0 r1 lab = a.BranchOffs op r0 r1 ((A : Int) - (a.current : Int))
    ∧ a.JumpLabel op lab = a.JumpOffs op ((A : Int) - (a.current : Int))
    ∧ (a.BranchLabel op r0 r1 lab).fixups = a.fixups
    ∧ (a.JumpLabel op lab).fixups = a.fixups := by
  have haddr : a.AddressOf lab = some A := by
    unfold Assembler.AddressOf
    rw [hbound]
    simp [hA]
  have hword : wordBranch op r0 r1 (sint32 (u32 ((A : Int) - (a.current : Int))))
      = wordBranch op r0 r1 ((A : Int) - (a.current : Int)) := by
    rw [wordBranch_eq, wordBranch_eq]
    have h := sint32_u32_emod ((A : Int) - (a.current : Int))
    omega
  have hword20 : wordJ20 op (sint32 (u32 ((A : Int) - (a.current : Int))))
      = wordJ20 op ((A : Int) - (a.current : Int)) := by
    rw [wordJ20_eq, wordJ20_eq]
    have h := sint32_u32_emod ((A : Int) - (a.current : Int))
    omega
  have h1 : a.BranchLabel op r0 r1 lab
      = a.BranchOffs op r0 r1 ((A : Int) - (a.current : Int)) := by
    simp only [Assembler.BranchLabel, haddr]
    unfold Assembler.BranchOffs
    rw [hword]
  have h2 : a.JumpLabel op lab = a.JumpOffs op ((A : Int) - (a.current : Int)) := by
    simp only [Assembler.JumpLabel, haddr]
    unfold Assembler.JumpOffs
    rw [hword20]
  refine ⟨h1, h2, ?_, ?_⟩
  · rw [h1]
    rfl
  · rw [h2]
    rfl

/-- Witness for C7 at a concrete assembler whose label 0 is bound to 100
with current offset 8. -/
theorem branch_label_bound_eq_numeric_witness :
    ({ code := [], current := 8, labels := [100], fixups := [] } : Assembler).BranchLabel
        Opcode.Beq 1 2 0
      = ({ code := [], current := 8, labels := [100], fixups := [] } : Assembler).BranchOffs
        Opcode.Beq 1 2 ((100 : Int) - (8 : Int)) :=
  (branch_label_bound_eq_numeric
    { code := [], current := 8, labels := [100], fixups := [] }
    Opcode.Beq 1 2 0 100 (by decide) (by decide)).1

/-! Assembler emit methods (assembler.h), one per mnemonic reachable from the
transcoder; each appends the corresponding builder word. -/

/-- Assembler::Ecall. -/
def Assembler.Ecall (a : Assembler) : Assembler := a.Emit (encode.opc Opcode.Ecall)

/-- Assembler::Ebreak. -/
def Assembler.Ebreak (a : Assembler) : Assembler := a.Emit (encode.opc Opcode.Ebreak)

/-- Assembler::Add. -/
def Assembler.Add (a : Assembler) (r0 r1 r2 : Nat) : Assembler :=
  a.Emit (wordRR Opcode.Add r0 r1 r2)

/-- Assembler::Sub. -/
def Assembler.Sub (a : Assembler) (r0 r1 r2 : Nat) : Assembler :=
  a.Emit (wordRR Opcode.Sub r0 r1 r2)

/-- Assembler::Sll. -/
def Assembler.Sll (a : Assembler) (r0 r1 r2 : Nat) : Assembler :=
  a.Emit (wordRR Opcode.Sll r0 r1 r2)

/-- Assembler::Slt. -/
def Assembler.Slt (a : Assembler) (r0 r1 r2 : Nat) : Assembler :=
  a.Emit (wordRR Opcode.Slt r0 r1 r2)

/-- Assembler::Sltu. -/
def Assembler.Sltu (a : Assembler) (r0 r1 r2 : Nat) : Assembler :=
  a.Emit (wordRR Opcode.Sltu r0 r1 r2)

/-- Assembler::Xor. -/
def Assembler.Xor (a : Assembler) (r0 r1 r2 : Nat) : Assembler :=
  a.Emit (wordRR Opcode.Xor r0 r1 r2)

/-- Assembler::Srl. -/
def Assembler.Srl (a : Assembler) (r0 r1 r2 : Nat) : Assembler :=
  a.Emit (wordRR Opcode.Srl r0 r1 r2)

/-- Assembler::Sra. -/
def Assembler.Sra (a : Assembler) (r0 r1 r2 : Nat) : Assembler :=
  a.Emit (wordRR Opcode.Sra r0 r1 r2)

/-- Assembler::Or. -/
def Assembler.Or (a : Assembler) (r0 r1 r2 : Nat) : Assembler :=
  a.Emit (wordRR Opcode.Or r0 r1 r2)

/-- Assembler::And. -/
def Assembler.And (a : Assembler) (r0 r1 r2 : Nat) : Assembler :=
  a.Emit (wordRR Opcode.And r0 r1 r2)

/-- Assembler::Slli. -/
def Assembler.Slli (a : Assembler) (r0 r1 sh : Nat) : Assembler :=
  a.Emit (wordShiftImm Opcode.Slli r0 r1 sh)

/-- Assembler::Srli. -/
def Assembler.Srli (a : Assembler) (r0 r1 sh : Nat) : Assembler :=
  a.Emit (wordShiftImm Opcode.Srli r0 r1 sh)

/-- Assembler::Srai. -/
def Assembler.Srai (a : Assembler) (r0 r1 sh : Nat) : Assembler :=
  a.Emit (wordShiftImm Opcode.Srai r0 r1 sh)

/-- Assembler::Beq (numeric offset). -/
def Assembler.Beq (a : Assembler) (r0 r1 : Nat) (offs : Int) : Assembler :=
  a.BranchOffs Opcode.Beq r0 r1 offs

/-- Assembler::Bne (numeric offset). -/
def Assembler.Bne (a : Assembler) (r0 r1 : Nat) (offs : Int) : Assembler :=
  a.BranchOffs Opcode.Bne r0 r1 offs

/-- Assembler::Blt (numeric offset). -/
def Assembler.Blt (a : Assembler) (r0 r1 : Nat) (offs : Int) : Assembler :=
  a.BranchOffs Opcode.Blt r0 r1 offs

/-- Assembler::Bge (numeric offset). -/
def Assembler.Bge (a : Assembler) (r0 r1 : Nat) (offs : Int) : Assembler :=
  a.BranchOffs Opcode.Bge r0 r1 offs

/-- Assembler::Bltu (numeric offset). -/
def Assembler.Bltu (a : Assembler) (r0 r1 : Nat) (offs : Int) : Assembler :=
  a.BranchOffs Opcode.Bltu r0 r1 offs

/-- Assembler::Bgeu (numeric offset). -/
def Assembler.Bgeu (a : Assembler) (r0 r1 : Nat) (offs : Int) : Assembler :=
  a.BranchOffs Opcode.Bgeu r0 r1 offs

/-- Assembler::Addi. -/
def Assembler.Addi (a : Assembler) (r0 r1 : Nat) (imm : Int) : Assembler :=
  a.Emit (wordRI Opcode.Addi r0 r1 imm)

/-- Assembler::Slti. -/
def Assembler.Slti (a : Assembler) (r0 r1 : Nat) (imm : Int) : Assembler :=
  a.Emit (wordRI Opcode.Slti r0 r1 imm)

/-- Assembler::Sltiu. -/
def Assembler.Sltiu (a : Assembler) (r0 r1 : Nat) (imm : Int) : Assembler :=
  a.Emit (wordRI Opcode.Sltiu r0 r1 imm)

/-- Assembler::Xori. -/
def Assembler.Xori (a : Assembler) (r0 r1 : Nat) (imm : Int) : Assembler :=
  a.Emit (wordRI Opcode.Xori r0 r1 imm)

/-- Assembler::Ori. -/
def Assembler.Ori (a : Assembler) (r0 r1 : Nat) (imm : Int) : Assembler :=
  a.Emit (wordRI Opcode.Ori r0 r1 imm)

/-- Assembler::Andi. -/
def Assembler.Andi (a : Assembler) (r0 r1 : Nat) (imm : Int) : Assembler :=
  a.Emit (wordRI Opcode.Andi r0 r1 imm)

/-- Assembler::Lb. -/
def Assembler.Lb (a : Assembler) (r0 : Nat) (imm : Int) (r1 : Nat) : Assembler :=
  a.Emit (wordMem Opcode.Lb r0 imm r1)

/-- Assembler::Lbu. -/
def Assembler.Lbu (a : Assembler) (r0 : Nat) (imm : Int) (r1 : Nat) : Assembler :=
  a.Emit (wordMem Opcode.Lbu r0 imm r1)

/-- Assembler::Lh. -/
def Assembler.Lh (a : Assembler) (r0 : Nat) (imm : Int) (r1 : Nat) : Assembler :=
  a.Emit (wordMem Opcode.Lh r0 imm r1)

/-- Assembler::Lhu. -/
def Assembler.Lhu (a : Assembler) (r0 : Nat) (imm : Int) (r1 : Nat) : Assembler :=
  a.Emit (wordMem Opcode.Lhu r0 imm r1)

/-- Assembler::Lw. -/
def Assembler.Lw (a : Assembler) (r0 : Nat) (imm : Int) (r1 : Nat) : Assembler :=
  a.Emit (wordMem Opcode.Lw r0 imm r1)

/-- Assembler::Sb. -/
def Assembler.Sb (a : Assembler) (r0 : Nat) (imm : Int) (r1 : Nat) : Assembler :=
  a.Emit (wordMem Opcode.Sb r0 imm r1)

/-- Assembler::Sh. -/
def Assembler.Sh (a : Assembler) (r0 : Nat) (imm : Int) (r1 : Nat) : Assembler :=
  a.Emit (wordMem Opcode.Sh r0 imm r1)

/-- Assembler::Sw. -/
def Assembler.Sw (a : Assembler) (r0 : Nat) (imm : Int) (r1 : Nat) : Assembler :=
  a.Emit (wordMem Opcode.Sw r0 imm r1)

/-- Assembler::Fence. -/
def Assembler.Fence (a : Assembler) : Assembler := a.Emit (encode.opc Opcode.Fence)

/-- Assembler::Jalr. -/
def Assembler.Jalr (a : Assembler) (r0 : Nat) (offs : Int) (r1 : Nat) : Assembler :=
  a.Emit (wordJalr Opcode.Jalr r0 offs r1)

/-- Assembler::Jal. -/
def Assembler.Jal (a : Assembler) (r0 : Nat) (offs : Int) : Assembler :=
  a.Emit (wordJal Opcode.Jal r0 offs)

/-- Assembler::Lui. -/
def Assembler.Lui (a : Assembler) (r0 u : Nat) : Assembler :=
  a.Emit (wordU Opcode.Lui r0 u)

/-- Assembler::Auipc. -/
def Assembler.Auipc (a : Assembler) (r0 u : Nat) : Assembler :=
  a.Emit (wordU Opcode.Auipc r0 u)

/-- Assembler::Illegal — emits a bare `Illegal` opcode word. -/
def Assembler.Illegal (a : Assembler) (_ins : Nat) : Assembler :=
  a.Emit (encode.opc Opcode.Illegal)

/-! The RV32I decoder (class DecodeRv32): standard RV32I field extraction of
a 32-bit word. -/

namespace DecodeRv32

/-- DecodeRv32::Rd — `(ins >> 7) & 0x1f`. -/
def Rd (ins : Nat) : Nat := (ins >>> 7) &&& 0x1f

/-- DecodeRv32::Rs1 — `(ins >> 15) & 0x1f`. -/
def Rs1 (ins : Nat) : Nat := (ins >>> 15) &&& 0x1f

/-- DecodeRv32::Rs2 — `(ins >> 20) & 0x1f`. -/
def Rs2 (ins : Nat) : Nat := (ins >>> 20) &&& 0x1f

/-- DecodeRv32::Shamtw — `(ins >> 20) & 0x1f`. -/
def Shamtw (ins : Nat) : Nat := (ins >>> 20) &&& 0x1f

/-- DecodeRv32::Bimmediate — B-type immediate: `sext(ins[31]) -> imm[12]`,
`ins[7] -> imm[11]`, `ins[30:25] -> imm[10:5]`, `ins[11:8] -> imm[4:1]`
(the arithmetic `>> 19` of the `int32_t` is floor division). -/
def Bimmediate (ins : Nat) : Nat :=
  u32 (sint32 (ins &&& 0x80000000) / 524288)
    ||| ((ins &&& 0x00000080) <<< 4)
    ||| ((ins &&& 0x7e000000) >>> 20)
    ||| ((ins &&& 0x00000f00) >>> 7)

/-- DecodeRv32::Iimmediate — `(int32_t)ins >> 20` as `uint32_t`. -/
def Iimmediate (ins : Nat) : Nat := u32 (sint32 ins / 1048576)

/-- DecodeRv32::Simmediate — S-type immediate. -/
def Simmediate (ins : Nat) : Nat :=
  u32 (sint32 (ins &&& 0xfe000000) / 1048576) ||| ((ins &&& 0x00000f80) >>> 7)

/-- DecodeRv32::Jimmediate — J-type immediate. -/
def Jimmediate (ins : Nat) : Nat :=
  u32 (sint32 (ins &&& 0x80000000) / 2048)
    ||| (ins &&& 0x000ff000)
    ||| ((ins &&& 0x00100000) >>> 9)
    ||| ((ins &&& 0x7fe00000) >>> 20)

/-- DecodeRv32::Uimmediate — `ins & 0xfffff000`. -/
def Uimmediate (ins : Nat) : Nat := ins &&& 0xfffff000

end DecodeRv32

/-- Transcode — re-emit one RV32I word through the assembler as Owl-2820:
first match the full word (ecall/ebreak), then mask `0xfe00707f`
(register-register and immediate shifts), then `0x0000707f` (branches,
`jalr`, immediate ALU, loads, stores, `fence`), then `0x0000007f`
(`jal`/`lui`/`auipc`); any fall-through emits `Illegal`. -/
def Transcode (a : Assembler) (code : Nat) : Assembler :=
  if code = 0x00000073 then a.Ecall
  else if code = 0x00100073 then a.Ebreak
  else if code &&& 0xfe00707f = 0x00000033 then
    a.Add (DecodeRv32.Rd code) (DecodeRv32.Rs1 code) (DecodeRv32.Rs2 code)
  else if code &&& 0xfe00707f = 0x40000033 then
    a.Sub (DecodeRv32.Rd code) (DecodeRv32.Rs1 code) (DecodeRv32.Rs2 code)
  else if code &&& 0xfe00707f = 0x00001033 then
    a.Sll (DecodeRv32.Rd code) (DecodeRv32.Rs1 code) (DecodeRv32.Rs2 code)
  else if code &&& 0xfe00707f = 0x00002033 then
    a.Slt (DecodeRv32.Rd code) (DecodeRv32.Rs1 code) (DecodeRv32.Rs2 code)
  else if code &&& 0xfe00707f = 0x00003033 then
    a.Sltu (DecodeRv32.Rd code) (DecodeRv32.Rs1 code) (DecodeRv32.Rs2 code)
  else if code &&& 0xfe00707f = 0x00004033 then
    a.Xor (DecodeRv32.Rd code) (DecodeRv32.Rs1 code) (DecodeRv32.Rs2 code)
  else if code &&& 0xfe00707f = 0x00005033 then
    a.Srl (DecodeRv32.Rd code) (DecodeRv32.Rs1 code) (DecodeRv32.Rs2 code)
  else if code &&& 0xfe00707f = 0x40005033 then
    a.Sra (DecodeRv32.Rd code) (DecodeRv32.Rs1 code) (DecodeRv32.Rs2 code)
  else if code &&& 0xfe00707f = 0x00006033 then
    a.Or (DecodeRv32.Rd code) (DecodeRv32.Rs1 code) (DecodeRv32.Rs2 code)
  else if code &&& 0xfe00707f = 0x00007033 then
    a.And (DecodeRv32.Rd code) (DecodeRv32.Rs1 code) (DecodeRv32.Rs2 code)
  else if code &&& 0xfe00707f = 0x00001013 then
    a.Slli (DecodeRv32.Rd code) (DecodeRv32.Rs1 code) (DecodeRv32.Shamtw code)
  else if code &&& 0xfe00707f = 0x00005013 then
    a.Srli (DecodeRv32.Rd code) (DecodeRv32.Rs1 code) (DecodeRv32.Shamtw code)
  else if code &&& 0xfe00707f = 0x40005013 then
    a.Srai (DecodeRv32.Rd code) (DecodeRv32.Rs1 code) (DecodeRv32.Shamtw code)
  else if code &&& 0x0000707f = 0x00000063 then
    a.Beq (DecodeRv32.Rs1 code) (DecodeRv32.Rs2 code) (sint32 (DecodeRv32.Bimmediate code))
  else if code &&& 0x0000707f = 0x00001063 then
    a.Bne (DecodeRv32.Rs1 code) (DecodeRv32.Rs2 code) (sint32 (DecodeRv32.Bimmediate code))
  else if code &&& 0x0000707f = 0x00004063 then
    a.Blt (DecodeRv32.Rs1 code) (DecodeRv32.Rs2 code) (sint32 (DecodeRv32.Bimmediate code))
  else if code &&& 0x0000707f = 0x00005063 then
    a.Bge (DecodeRv32.Rs1 code) (DecodeRv32.Rs2 code) (sint32 (DecodeRv32.Bimmediate code))
  else if code &&& 0x0000707f = 0x00006063 then
    a.Bltu (DecodeRv32.Rs1 code) (DecodeRv32.Rs2 code) (sint32 (DecodeRv32.Bimmediate code))
  else if code &&& 0x0000707f = 0x00007063 then
    a.Bgeu (DecodeRv32.Rs1 code) (DecodeRv32.Rs2 code) (sint32 (DecodeRv32.Bimmediate code))
  else if code &&& 0x0000707f = 0x00000067 then
    a.Jalr (DecodeRv32.Rd code) (sint32 (DecodeRv32.Iimmediate code)) (DecodeRv32.Rs1 code)
  else if code &&& 0x0000707f = 0x00000013 then
    a.Addi (DecodeRv32.Rd code) (DecodeRv32.Rs1 code) (sint32 (DecodeRv32.Iimmediate code))
  else if code &&& 0x0000707f = 0x00002013 then
    a.Slti (DecodeRv32.Rd code) (DecodeRv32.Rs1 code) (sint32 (DecodeRv32.Iimmediate code))
  else if code &&& 0x0000707f = 0x00003013 then
    a.Sltiu (DecodeRv32.Rd code) (DecodeRv32.Rs1 code) (sint32 (DecodeRv32.Iimmediate code))
  else if code &&& 0x0000707f = 0x00004013 then
    a.Xori (DecodeRv32.Rd code) (DecodeRv32.Rs1 code) (sint32 (DecodeRv32.Iimmediate code))
  else if code &&& 0x0000707f = 0x00006013 then
    a.Ori (DecodeRv32.Rd code) (DecodeRv32.Rs1 code) (sint32 (DecodeRv32.Iimmediate code))
  else if code &&& 0x0000707f = 0x00007013 then
    a.Andi (DecodeRv32.Rd code) (DecodeRv32.Rs1 code) (sint32 (DecodeRv32.Iimmediate code))
  else if code &&& 0x0000707f = 0x00000003 then
    a.Lb (DecodeRv32.Rd code) (sint32 (DecodeRv32.Iimmediate code)) (DecodeRv32.Rs1 code)
  else if code &&& 0x0000707f = 0x00001003 then
    a.Lh (DecodeRv32.Rd code) (sint32 (DecodeRv32.Iimmediate code)) (DecodeRv32.Rs1 code)
  else if code &&& 0x0000707f = 0x00002003 then
    a.Lw (DecodeRv32.Rd code) (sint32 (DecodeRv32.Iimmediate code)) (DecodeRv32.Rs1 code)
  else if code &&& 0x0000707f = 0x00004003 then
    a.Lbu (DecodeRv32.Rd code) (sint32 (DecodeRv32.Iimmediate code)) (DecodeRv32.Rs1 code)
  else if code &&& 0x0000707f = 0x00005003 then
    a.Lhu (DecodeRv32.Rd code) (sint32 (DecodeRv32.Iimmediate code)) (DecodeRv32.Rs1 code)
  else if code &&& 0x0000707f = 0x00000023 then
    a.Sb (DecodeRv32.Rs1 code) (sint32 (DecodeRv32.Simmediate code)) (DecodeRv32.Rs2 code)
  else if code &&& 0x0000707f = 0x00001023 then
    a.Sh (DecodeRv32.Rs1 code) (sint32 (DecodeRv32.Simmediate code)) (DecodeRv32.Rs2 code)
  else if code &&& 0x0000707f = 0x00002023 then
    a.Sw (DecodeRv32.Rs1 code) (sint32 (DecodeRv32.Simmediate code)) (DecodeRv32.Rs2 code)
  else if code &&& 0x0000707f = 0x0000000f then a.Fence
  else if code &&& 0x0000007f = 0x0000006f then
    a.Jal (DecodeRv32.Rd code) (sint32 (DecodeRv32.Jimmediate code))
  else if code &&& 0x0000007f = 0x00000037 then
    a.Lui (DecodeRv32.Rd code) (DecodeRv32.Uimmediate code)
  else if code &&& 0x0000007f = 0x00000017 then
    a.Auipc (DecodeRv32.Rd code) (DecodeRv32.Uimmediate code)
  else a.Illegal code

/-- DispatchRv32i — execute one RV32I word directly on the executor, with the
same layered mask dispatch and the same operand conversions as the
transcoder. -/
def DispatchRv32i (a : OwlCpu) (code : Nat) : Option OwlCpu :=
  if code = 0x00000073 then some a.Ecall
  else if code = 0x00100073 then some a.Ebreak
  else if code &&& 0xfe00707f = 0x00000033 then
    some (a.Add (DecodeRv32.Rd code) (DecodeRv32.Rs1 code) (DecodeRv32.Rs2 code))
  else if code &&& 0xfe00707f = 0x40000033 then
    some (a.Sub (DecodeRv32.Rd code) (DecodeRv32.Rs1 code) (DecodeRv32.Rs2 code))
  else if code &&& 0xfe00707f = 0x00001033 then
    some (a.Sll (DecodeRv32.Rd code) (DecodeRv32.Rs1 code) (DecodeRv32.Rs2 code))
  else if code &&& 0xfe00707f = 0x00002033 then
    some (a.Slt (DecodeRv32.Rd code) (DecodeRv32.Rs1 code) (DecodeRv32.Rs2 code))
  else if code &&& 0xfe00707f = 0x00003033 then
    some (a.Sltu (DecodeRv32.Rd code) (DecodeRv32.Rs1 code) (DecodeRv32.Rs2 code))
  else if code &&& 0xfe00707f = 0x00004033 then
    some (a.Xor (DecodeRv32.Rd code) (DecodeRv32.Rs1 code) (DecodeRv32.Rs2 code))
  else if code &&& 0xfe00707f = 0x00005033 then
    some (a.Srl (DecodeRv32.Rd code) (DecodeRv32.Rs1 code) (DecodeRv32.Rs2 code))
  else if code &&& 0xfe00707f = 0x40005033 then
    a.Sra (DecodeRv32.Rd code) (DecodeRv32.Rs1 code) (DecodeRv32.Rs2 code)
  else if code &&& 0xfe00707f = 0x00006033 then
    some (a.Or (DecodeRv32.Rd code) (DecodeRv32.Rs1 code) (DecodeRv32.Rs2 code))
  else if code &&& 0xfe00707f = 0x00007033 then
    some (a.And (DecodeRv32.Rd code) (DecodeRv32.Rs1 code) (DecodeRv32.Rs2 code))
  else if code &&& 0xfe00707f = 0x00001013 then
    a.Slli (DecodeRv32.Rd code) (DecodeRv32.Rs1 code) (DecodeRv32.Shamtw code)
  else if code &&& 0xfe00707f = 0x00005013 then
    a.Srli (DecodeRv32.Rd code) (DecodeRv32.Rs1 code) (DecodeRv32.Shamtw code)
  else if code &&& 0xfe00707f = 0x40005013 then
    a.Srai (DecodeRv32.Rd code) (DecodeRv32.Rs1 code) (DecodeRv32.Shamtw code)
  else if code &&& 0x0000707f = 0x00000063 then
    some (a.Beq (DecodeRv32.Rs1 code) (DecodeRv32.Rs2 code)
      (sint32 (DecodeRv32.Bimmediate code)))
  else if code &&& 0x0000707f = 0x00001063 then
    some (a.Bne (DecodeRv32.Rs1 code) (DecodeRv32.Rs2 code)
      (sint32 (DecodeRv32.Bimmediate code)))
  else if code &&& 0x0000707f = 0x00004063 then
    some (a.Blt (DecodeRv32.Rs1 code) (DecodeRv32.Rs2 code)
      (sint32 (DecodeRv32.Bimmediate code)))
  else if code &&& 0x0000707f = 0x00005063 then
    some (a.Bge (DecodeRv32.Rs1 code) (DecodeRv32.Rs2 code)
      (sint32 (DecodeRv32.Bimmediate code)))
  else if code &&& 0x0000707f = 0x00006063 then
    some (a.Bltu (DecodeRv32.Rs1 code) (DecodeRv32.Rs2 code)
      (sint32 (DecodeRv32.Bimmediate code)))
  else if code &&& 0x0000707f = 0x00007063 then
    some (a.Bgeu (DecodeRv32.Rs1 code) (DecodeRv32.Rs2 code)
      (sint32 (DecodeRv32.Bimmediate code)))
  else if code &&& 0x0000707f = 0x00000067 then
    some (a.Jalr (DecodeRv32.Rd code) (sint32 (DecodeRv32.Iimmediate code))
      (DecodeRv32.Rs1 code))
  else if code &&& 0x0000707f = 0x00000013 then
    some (a.Addi (DecodeRv32.Rd code) (DecodeRv32.Rs1 code)
      (sint32 (DecodeRv32.Iimmediate code)))
  else if code &&& 0x0000707f = 0x00002013 then
    a.Slti (DecodeRv32.Rd code) (DecodeRv32.Rs1 code) (sint32 (DecodeRv32.Iimmediate code))
  else if code &&& 0x0000707f = 0x00003013 then
    some (a.Sltiu (DecodeRv32.Rd code) (DecodeRv32.Rs1 code)
      (sint32 (DecodeRv32.Iimmediate code)))
  else if code &&& 0x0000707f = 0x00004013 then
    some (a.Xori (DecodeRv32.Rd code) (DecodeRv32.Rs1 code)
      (sint32 (DecodeRv32.Iimmediate code)))
  else if code &&& 0x0000707f = 0x00006013 then
    some (a.Ori (DecodeRv32.Rd code) (DecodeRv32.Rs1 code)
      (sint32 (DecodeRv32.Iimmediate code)))
  else if code &&& 0x0000707f = 0x00007013 then
    some (a.Andi (DecodeRv32.Rd code) (DecodeRv32.Rs1 code)
      (sint32 (DecodeRv32.Iimmediate code)))
  else if code &&& 0x0000707f = 0x00000003 then
    a.Lb (DecodeRv32.Rd code) (sint32 (DecodeRv32.Iimmediate code)) (DecodeRv32.Rs1 code)
  else if code &&& 0x0000707f = 0x00001003 then
    a.Lh (DecodeRv32.Rd code) (sint32 (DecodeRv32.Iimmediate code)) (DecodeRv32.Rs1 code)
  else if code &&& 0x0000707f = 0x00002003 then
    a.Lw (DecodeRv32.Rd code) (sint32 (DecodeRv32.Iimmediate code)) (DecodeRv32.Rs1 code)
  else if code &&& 0x0000707f = 0x00004003 then
    a.Lbu (DecodeRv32.Rd code) (sint32 (DecodeRv32.Iimmediate code)) (DecodeRv32.Rs1 code)
  else if code &&& 0x0000707f = 0x00005003 then
    a.Lhu (DecodeRv32.Rd code) (sint32 (DecodeRv32.Iimmediate code)) (DecodeRv32.Rs1 code)
  else if code &&& 0x0000707f = 0x00000023 then
    a.Sb (DecodeRv32.Rs1 code) (sint32 (DecodeRv32.Simmediate code)) (DecodeRv32.Rs2 code)
  else if code &&& 0x0000707f = 0x00001023 then
    a.Sh (DecodeRv32.Rs1 code) (sint32 (DecodeRv32.Simmediate code)) (DecodeRv32.Rs2 code)
  else if code &&& 0x0000707f = 0x00002023 then
    a.Sw (DecodeRv32.Rs1 code) (sint32 (DecodeRv32.Simmediate code)) (DecodeRv32.Rs2 code)
  else if code &&& 0x0000707f = 0x0000000f then some a.Fence
  else if code &&& 0x0000007f = 0x0000006f then
    some (a.Jal (DecodeRv32.Rd code) (sint32 (DecodeRv32.Jimmediate code)))
  else if code &&& 0x0000007f = 0x00000037 then
    some (a.Lui (DecodeRv32.Rd code) (DecodeRv32.Uimmediate code))
  else if code &&& 0x0000007f = 0x00000017 then
    some (a.Auipc (DecodeRv32.Rd code) (DecodeRv32.Uimmediate code))
  else some (a.Illegal code)

/-- C1 (evaluation at the failing input): take the RV32I word `0x000010B7`
(`lui x1, 0x1`).  Dispatching it directly sets `x[1] = 0x1000`.  Transcoding
it emits the single Owl word `0x010000A7` — `Assembler::Lui` shifts the
already-shifted `Uimmediate()` a second time (`encode::uimm20`) — and
executing that word through the Owl dispatcher sets `x[1] = 0x01000000`.
The two observable register states differ, refuting the claimed equivalence
on a supported instruction. -/
theorem transcode_lui_not_equivalent :
    (Transcode { code := [], current := 0, labels := [], fixups := [] } 0x000010B7).code
      = [0x010000A7]
    ∧ (DispatchRv32i (OwlCpu.init []) 0x000010B7).map (fun t => t.x 1) = some 0x00001000
    ∧ (DispatchOwl (OwlCpu.init []) 0x010000A7).map (fun t => t.x 1) = some 0x01000000
    ∧ (0x00001000 : Nat) ≠ 0x01000000 :=
  ⟨by decide, by decide, by decide, by decide⟩
